import Mathlib

/-!
# Verification of the Inkbird BLE temperature/humidity sensor plugin

Shallow embedding of the discovery/decode logic of
`InkbirdBtTHSensorAccessory.js`: the payload decoder (`parseStatus`),
the plausibility filter and poll scheduler (`RunStatemachine`), and the
configuration analysis done by the accessory constructor.

Machine integers are modelled as `Nat`/`Int` with explicit `% 2 ^ w`
where overflow matters; JavaScript numbers that carry physical readings
are modelled as `ℚ`; `undefined` is modelled as `Option.none`; a thrown
`RangeError` (out-of-range buffer read) is modelled as an `Option.none`
result of the whole computation.
-/

namespace Inkbird

/-! ## Byte-buffer reads (Node `Buffer.readUIntLE` / `readIntLE`) -/

/-- Little-endian value of a list of bytes (first byte is least significant). -/
def leValue : List Nat → Nat
  | [] => 0
  | b :: bs => b + 256 * leValue bs

/-- `Buffer.readUIntLE(offset, byteLength)`: little-endian unsigned read.
`none` models the `RangeError` thrown on an out-of-range access. -/
def readUIntLE (buf : List Nat) (off len : Nat) : Option Nat :=
  if off + len ≤ buf.length then some (leValue ((buf.drop off).take len)) else none

/-- Interpret an unsigned `len`-byte value as two's-complement signed. -/
def toSigned (len v : Nat) : Int :=
  if v < 2 ^ (8 * len - 1) then (v : Int) else (v : Int) - 2 ^ (8 * len)

/-- `Buffer.readIntLE(offset, byteLength)`: little-endian signed read. -/
def readIntLE (buf : List Nat) (off len : Nat) : Option Int :=
  (readUIntLE buf off len).map (toSigned len)

/-! ## Checksum engine

The file `CRC16_0x18005.js` is required by the accessory
(`const CRC16_0x18005 = require('./CRC16_0x18005')`) but its body is not
part of the sources under verification; it is modelled from the spec
below.  The call site in `parseStatus` is
`CRC16_0x18005(self.cRawStatus, 0, 4, true, true, 0xFFFF, 0x0)`. -/

/-- Reverse the low `n` bits of `c` (bit `i` of the result is bit
`n - 1 - i` of `c`). -/
def reflectBits : Nat → Nat → Nat
  | 0, _ => 0
  | n + 1, c => (c % 2) * 2 ^ n + reflectBits n (c / 2)

/-- Bit-reflection of an 8-bit value. -/
def reflect8 (b : Nat) : Nat := reflectBits 8 b

/-- Bit-reflection of a 16-bit value. -/
def reflect16 (c : Nat) : Nat := reflectBits 16 c

/-- One MSB-first CRC round with the normal-form polynomial 0x8005:
shift left; if a 1 fell off the top, XOR in the polynomial. -/
def crcMsbRound (c : Nat) : Nat :=
  if c / 2 ^ 15 % 2 = 1 then (c * 2 % 2 ^ 16) ^^^ 0x8005 else c * 2 % 2 ^ 16

/-- `n` iterated MSB-first CRC rounds. -/
def crcMsbRounds : Nat → Nat → Nat
  | 0, c => c
  | n + 1, c => crcMsbRounds n (crcMsbRound c)

/-- Mix one input byte into the running CRC: optionally bit-reflect the
byte, XOR it into the high half of the accumulator, run 8 rounds. -/
def crcMixByte (reflectIn : Bool) (c b : Nat) : Nat :=
  crcMsbRounds 8 (c ^^^ (if reflectIn then reflect8 b else b) * 2 ^ 8)

/-- Modelled from the spec: the checksum engine `CRC16_0x18005.js`, whose
source file is not among the sources under verification.  Per the spec it
is a CRC-16 with the polynomial fixed at 0x18005 (0x8005 in normal form),
per-input-byte bit-reflection when `reflectIn` is set, final-accumulator
bit-reflection when `reflectOut` is set, and caller-supplied seed and
final XOR.  The processed range is `iStart .. iEnd` inclusive, matching
the call site `(buffer, 0, 4, ...)` together with the wire-format comment
in `index.js` that the CRC covers the five data bytes
`0xtt 0xtt 0xhh 0xhh 0xss`; `none` models the out-of-range failure mode. -/
def CRC16_0x18005 (buf : List Nat) (iStart iEnd : Nat) (reflectIn reflectOut : Bool)
    (seed finalXor : Nat) : Option Nat :=
  if iEnd < buf.length ∧ iStart ≤ iEnd then
    let data := (buf.drop iStart).take (iEnd + 1 - iStart)
    let c := data.foldl (crcMixByte reflectIn) (seed % 2 ^ 16)
    some (((if reflectOut then reflect16 c else c) ^^^ finalXor) % 2 ^ 16)
  else none

/-- Reference CRC-16/MODBUS, written in the usual reflected (LSB-first)
form with polynomial 0xA001 and seed 0xFFFF, used to cross-check the
modelled engine on concrete vectors. -/
def crcLsbRound (c : Nat) : Nat :=
  if c % 2 = 1 then (c / 2) ^^^ 0xA001 else c / 2

/-- `n` iterated LSB-first CRC rounds. -/
def crcLsbRounds : Nat → Nat → Nat
  | 0, c => c
  | n + 1, c => crcLsbRounds n (crcLsbRound c)

/-- Reference CRC-16/MODBUS of a byte list. -/
def crc16_modbus (data : List Nat) : Nat :=
  data.foldl (fun c b => crcLsbRounds 8 (c ^^^ b)) 0xFFFF

/-! ## Data model: sensor variants and configuration -/

/-- One entry of the model dictionary `DDMODELS`. -/
structure ModelCfg where
  datalength : Nat
  localName : String
  serviceDat : Option String
  serviceUuids : String
  dualView : Bool
deriving DecidableEq

/-- The value of `DDMODELS[strModel]`: `undefined` models a failed lookup
(`undefined`), `sentinel` models the `0` stored under
`"not in list - try it anyway"`, `known` a real descriptor. -/
inductive SensorCfg
  | undefined
  | sentinel
  | known (mc : ModelCfg)
deriving DecidableEq

/-- The model dictionary of `InkbirdBtTHSensorAccessory.js`. -/
def DDMODELS (strModel : String) : SensorCfg :=
  if strModel = "IBS-TH1" then .known ⟨9, "sps", none, "fff0", false⟩
  else if strModel = "IBS-TH1-Plus" then .known ⟨9, "sps", none, "fff0", true⟩
  else if strModel = "IBS-TH2" then .known ⟨9, "sps", none, "fff0", false⟩
  else if strModel = "IBS-TH2-Plus" then .known ⟨9, "sps", none, "fff0", true⟩
  else if strModel = "not in list - try it anyway" then .sentinel
  else .undefined

/-- JavaScript `a || d` for an optional string (`undefined` and `""` are falsy). -/
def jsOrStr (o : Option String) (d : String) : String :=
  match o with
  | some s => if s = "" then d else s
  | none => d

/-- JavaScript `a || d` for an optional number (`undefined` and `0` are falsy). -/
def jsOrQ (o : Option ℚ) (d : ℚ) : ℚ :=
  match o with
  | some x => if x = 0 then d else x
  | none => d

/-- JavaScript `a || d` for an optional natural number. -/
def jsOrNat (o : Option Nat) (d : Nat) : Nat :=
  match o with
  | some x => if x = 0 then d else x
  | none => d

/-- JavaScript `s.toLowerCase()`, as a structural map over the characters. -/
def jsToLowerCase (s : String) : String :=
  ⟨s.data.map Char.toLower⟩

/-- The configuration dictionary `dConfig` (the fields the core reads). -/
structure Config where
  model : Option String
  sensor : Option String
  mac_address : Option String
  update_interval : Option ℚ
  offset_int_temperature : Option ℚ
  offset_ext_temperature : Option ℚ
  offset_int_humidity : Option ℚ
  loglevel : Option Nat

/-- The configuration-derived fields of the accessory that the decoder and
the state machine consult (set once by the constructor, never mutated). -/
structure Ctx where
  dSensorCfg : SensorCfg
  bDualViewSensor : Bool
  strSensor : String
  strMAC : String
  iUpdateInt : Option ℚ
  fOffsetIntTemperature : ℚ
  fOffsetExtTemperature : ℚ
  fOffsetIntHumidity : ℚ
  iLogLevel : Nat
deriving DecidableEq

/-- The config-analysis part of the accessory constructor
(`InkbirdBtTHSensorAccessory.js`, constructor).  The second component is
whether the `Invalid sensor type` Error log was emitted (the `Log` call
fires when its level `ERROR = 1` is `≤ iLogLevel`). -/
def constructorInit (dConfig : Config) : Ctx × Bool :=
  let iLogLevel := jsOrNat dConfig.loglevel 3
  let strModel := jsOrStr dConfig.model ""
  let dSensorCfg := DDMODELS strModel
  let errorLogged := dSensorCfg = SensorCfg.undefined ∧ 1 ≤ iLogLevel
  let bDualViewSensor :=
    match dSensorCfg with
    | .known mc => mc.dualView
    | _ => false
  let strSensor := if bDualViewSensor then jsOrStr dConfig.sensor "auto" else "auto"
  let strMAC := jsToLowerCase (jsOrStr dConfig.mac_address "")
  let iUpdateInt := dConfig.update_interval.map (fun x => max 5 x)
  (⟨dSensorCfg, bDualViewSensor, strSensor, strMAC, iUpdateInt,
    jsOrQ dConfig.offset_int_temperature 0, jsOrQ dConfig.offset_ext_temperature 0,
    jsOrQ dConfig.offset_int_humidity 0, iLogLevel⟩, decide errorLogged)

/-! ## Payload decoder (`parseStatus`) -/

/-- The reading fields of the accessory that `parseStatus` (re)populates. -/
structure Reading where
  fTemperature : Option ℚ
  fIntTemperature : Option ℚ
  fExtTemperature : Option ℚ
  fIntHumidity : Option ℚ
  bExternalSensor : Option Bool
  fBatteryLevel : Option Nat
deriving DecidableEq

/-- All reading fields reset to `undefined` (head of `parseStatus`). -/
def Reading.empty : Reading := ⟨none, none, none, none, none, none⟩

/-- The temperature floor applied after scaling:
`if (t < -273.15) t = -273.15`. -/
def clampTemperature (x : ℚ) : ℚ :=
  if x < -27315 / 100 then -27315 / 100 else x

/-- Lines 504-516 of `parseStatus`: resolve the externally visible
temperature and (possibly overridden) external-sensor flag from the
configured sensor-selection policy. -/
def applySensorSelection (strSensor : String) (bExternalSensor : Bool)
    (fIntTemperature fExtTemperature : Option ℚ) : Bool × Option ℚ :=
  if strSensor = "auto" then
    (bExternalSensor, if bExternalSensor then fExtTemperature else fIntTemperature)
  else if strSensor = "internal" then
    (false, fIntTemperature)
  else
    (true, fExtTemperature)

/-- `parseStatus` of `InkbirdBtTHSensorAccessory.js`.  The result is
`none` when a buffer read throws a `RangeError`; otherwise
`some (reading, crcMismatchReported)` where the flag records whether the
`CRC Error ... Ignoring data!!` warning branch was taken. -/
def parseStatus (ctx : Ctx) (cRawStatus : Option (List Nat)) :
    Option (Reading × Bool) :=
  match cRawStatus with
  | none => some (Reading.empty, false)
  | some buf => do
    let sensorByte ← readUIntLE buf 4 1
    let bExternalSensor : Bool := sensorByte == 1
    let rawHumidity ← readUIntLE buf 2 2
    let fIntHumidity0 := ((rawHumidity : ℚ) + ctx.fOffsetIntHumidity) / 100
    let fIntHumidity1 := if fIntHumidity0 < 0 then 0 else fIntHumidity0
    let fIntHumidity := if fIntHumidity1 > 100 then 100 else fIntHumidity1
    let fBatteryLevel ← readUIntLE buf 7 1
    if ctx.bDualViewSensor && bExternalSensor then
      let rawIntT ← readIntLE buf 5 2
      let rawExtT ← readIntLE buf 0 2
      let fIntTemperature :=
        clampTemperature (((rawIntT : ℚ) + ctx.fOffsetIntTemperature) / 100)
      let fExtTemperature :=
        clampTemperature (((rawExtT : ℚ) + ctx.fOffsetExtTemperature) / 100)
      let sel := applySensorSelection ctx.strSensor bExternalSensor
        (some fIntTemperature) (some fExtTemperature)
      some ({ fTemperature := sel.2, fIntTemperature := some fIntTemperature,
              fExtTemperature := some fExtTemperature,
              fIntHumidity := some fIntHumidity,
              bExternalSensor := some sel.1,
              fBatteryLevel := some fBatteryLevel }, false)
    else
      let iCRC ← CRC16_0x18005 buf 0 4 true true 0xFFFF 0x0
      let stored ← readUIntLE buf 5 2
      if ctx.dSensorCfg ≠ SensorCfg.sentinel ∧ iCRC ≠ stored then
        some ({ fTemperature := none, fIntTemperature := none,
                fExtTemperature := none,
                fIntHumidity := some fIntHumidity,
                bExternalSensor := some bExternalSensor,
                fBatteryLevel := some fBatteryLevel }, true)
      else
        let rawT ← readIntLE buf 0 2
        let fIntTemperature := if bExternalSensor then none else
          some (clampTemperature (((rawT : ℚ) + ctx.fOffsetIntTemperature) / 100))
        let fExtTemperature := if bExternalSensor then
          some (clampTemperature (((rawT : ℚ) + ctx.fOffsetExtTemperature) / 100))
          else none
        let sel := applySensorSelection ctx.strSensor bExternalSensor
          fIntTemperature fExtTemperature
        some ({ fTemperature := sel.2, fIntTemperature := fIntTemperature,
                fExtTemperature := fExtTemperature,
                fIntHumidity := some fIntHumidity,
                bExternalSensor := some sel.1,
                fBatteryLevel := some fBatteryLevel }, false)

/-! ## Poll scheduler / state machine (`RunStatemachine`) -/

/-- The state enumeration `ESTATES`. -/
inductive EState
  | notReady
  | statusInvalid
  | scanning
  | ready4answer
deriving DecidableEq

/-- A stored continuation: either a caller-supplied poll callback or one
of the accessory's own `updateXxx` fallbacks (filled in by
`fCallbackXxx = fCallbackXxx || this.updateXxx`). -/
inductive Cb
  | user (id : Nat)
  | updateDefault
deriving DecidableEq

/-- The five per-quantity callback slots. -/
inductive SlotKind
  | temperature
  | humidity
  | extSensor
  | batteryLevel
  | lowBattery
deriving DecidableEq

/-- A JavaScript value handed to a callback. -/
inductive JsVal
  | num (q : ℚ)
  | bool (b : Bool)
  | undefined
deriving DecidableEq

/-- Observable effects of one `RunStatemachine` call, in program order. -/
inductive Event
  | startScanning
  | stopScanning
  | armTimer (ms : ℚ)
  | clearTimer
  | invoke (k : SlotKind) (c : Cb) (err : Option String) (v : JsVal)
  | logNotFoundWarning
  | logCrcMismatch
  | logImplausible
  | logHWWentOff
deriving DecidableEq

/-- A discovered peripheral's advertisement as the scheduler reads it. -/
structure Advertisement where
  address : String
  localName : Option String
  serviceDat : Option String
  serviceUuids : Option String
  manufacturerData : List Nat
deriving DecidableEq

/-- The mutable fields of the accessory that `RunStatemachine` touches.
`iTimeoutId` holds the duration (in ms) of the armed timer as a stand-in
for the opaque timer handle. -/
structure MachineState where
  eState : EState
  eOldState : Option EState
  bHWReady : Bool
  bQueryStarted : Bool
  cRawStatus : Option (List Nat)
  reading : Reading
  iTimeoutId : Option ℚ
  fCallbackTemperature : Option Cb
  fCallbackHumidity : Option Cb
  fCallbackExtSensor : Option Cb
  fCallbackBatteryLevel : Option Cb
  fCallbackLowBattery : Option Cb
deriving DecidableEq

/-- `stopTimeout`: clear the armed timer if one is live (the cancel
call, and hence the `clearTimer` event, fires only when a timer is
actually armed; the resulting field value is `none` either way). -/
def stopTimeout (s : MachineState) : MachineState × List Event :=
  ({ s with iTimeoutId := none },
   match s.iTimeoutId with
   | some _ => [Event.clearTimer]
   | none => [])

/-- `cb || this.updateXxx`: fall back to the default update continuation. -/
def fillSlot (c : Option Cb) : Option Cb :=
  match c with
  | some x => some x
  | none => some Cb.updateDefault

/-- An optional rational as a JavaScript value. -/
def qVal : Option ℚ → JsVal
  | some q => JsVal.num q
  | none => JsVal.undefined

/-- An optional boolean as a JavaScript value. -/
def boolVal : Option Bool → JsVal
  | some b => JsVal.bool b
  | none => JsVal.undefined

/-- An optional natural number as a JavaScript value. -/
def natVal : Option Nat → JsVal
  | some n => JsVal.num n
  | none => JsVal.undefined

/-- JavaScript `x < d` for a possibly-undefined number
(`undefined < d` is `false`). -/
def jsLtNat (o : Option Nat) (d : Nat) : Bool :=
  match o with
  | some n => decide (n < d)
  | none => false

/-- The four advertisement-shape comparisons of the plausibility check
(manufacturer-data length, local name, service data, service UUIDs). -/
def advertisementMatches (mc : ModelCfg) (p : Advertisement) : Bool :=
  (p.manufacturerData.length == mc.datalength) &&
  (p.localName == some mc.localName) &&
  (p.serviceDat == mc.serviceDat) &&
  (p.serviceUuids == some mc.serviceUuids)

/-- `(self.dSensorCfg == 0) || (length && name && serviceDat && uuids)`:
the sentinel passes unconditionally, a known variant must match on all
four fields.  (Never evaluated with `undefined`, see `stepScanning`.) -/
def acceptCondition (cfg : SensorCfg) (p : Advertisement) : Bool :=
  decide (cfg = SensorCfg.sentinel) ||
  (match cfg with
   | .known mc => advertisementMatches mc p
   | _ => false)

/-- The `NOT_READY` case of the state-machine switch. -/
def stepNotReady (s : MachineState) : MachineState × List Event :=
  let (s, ev) := stopTimeout s
  if s.bHWReady then ({ s with eState := EState.statusInvalid }, ev)
  else ({ s with iTimeoutId := some 5000 }, ev ++ [Event.armTimer 5000])

/-- The `STATUS_INVALID` case of the state-machine switch. -/
def stepStatusInvalid (ctx : Ctx) (s : MachineState) : MachineState × List Event :=
  let (s, ev) := stopTimeout s
  if s.bQueryStarted || ctx.iUpdateInt.isSome then
    ({ s with iTimeoutId := some 15000, eState := EState.scanning },
     ev ++ [Event.startScanning, Event.armTimer 15000])
  else (s, ev)

/-- The discovery block of the `SCANNING` case: store the manufacturer
data when the config is defined, the address fits and the sentinel or
four-field plausibility check passes. -/
def scanDiscover (ctx : Ctx) (cDiscover : Option Advertisement)
    (s : MachineState) : MachineState × List Event :=
  match cDiscover with
  | some p =>
    if ctx.dSensorCfg ≠ SensorCfg.undefined then
      if p.address = ctx.strMAC ∨ ctx.strMAC = "" then
        if acceptCondition ctx.dSensorCfg p then
          ({ s with cRawStatus := some p.manufacturerData }, ([] : List Event))
        else if ctx.strMAC ≠ "" then (s, [Event.logImplausible])
        else (s, [])
      else (s, [])
    else (s, [])
  | none => (s, [])

/-- The `SCANNING` case of the state-machine switch.  `cDiscover` carries
the peripheral of a discovery event (the `bDiscover`/`cPeripheral` pair);
`none` is the result of a thrown `RangeError` inside `parseStatus`. -/
def stepScanning (ctx : Ctx) (bTimeout : Bool) (cDiscover : Option Advertisement)
    (s : MachineState) : Option (MachineState × List Event) :=
  let s := { s with cRawStatus := none }
  let (s, ev1) := scanDiscover ctx cDiscover s
  if bTimeout || s.cRawStatus.isSome then
    let evWarn := if s.cRawStatus = none then [Event.logNotFoundWarning] else []
    let (s, evStop) := stopTimeout s
    match parseStatus ctx s.cRawStatus with
    | none => none
    | some (rd, crcWarn) =>
      let evCrc := if crcWarn then [Event.logCrcMismatch] else []
      let freshMs := jsOrQ ctx.iUpdateInt 10 * 1000
      some ({ s with
                reading := rd
                fCallbackTemperature := fillSlot s.fCallbackTemperature
                fCallbackHumidity := fillSlot s.fCallbackHumidity
                fCallbackExtSensor := fillSlot s.fCallbackExtSensor
                fCallbackBatteryLevel := fillSlot s.fCallbackBatteryLevel
                fCallbackLowBattery := fillSlot s.fCallbackLowBattery
                bQueryStarted := false
                iTimeoutId := some freshMs
                eState := EState.ready4answer },
            ev1 ++ evWarn ++ [Event.stopScanning] ++ evStop ++ evCrc ++
              [Event.armTimer freshMs])
  else some (s, ev1)

/-- One callback block of `READY4ANSWER`: if the slot holds a
continuation, invoke it with `(null, value)`. -/
def slotInvoke (k : SlotKind) (o : Option Cb) (v : JsVal) : List Event :=
  match o with
  | some c => [Event.invoke k c none v]
  | none => []

/-- The `READY4ANSWER` case of the state-machine switch: invoke and clear
every pending callback slot, then fall back to `STATUS_INVALID` on a
freshness timeout or a freshly started query. -/
def stepReady4answer (bTimeout : Bool) (s : MachineState) : MachineState × List Event :=
  let evT := slotInvoke SlotKind.temperature s.fCallbackTemperature
    (qVal s.reading.fTemperature)
  let evH := slotInvoke SlotKind.humidity s.fCallbackHumidity
    (qVal s.reading.fIntHumidity)
  let evE := slotInvoke SlotKind.extSensor s.fCallbackExtSensor
    (boolVal s.reading.bExternalSensor)
  let evB := slotInvoke SlotKind.batteryLevel s.fCallbackBatteryLevel
    (natVal s.reading.fBatteryLevel)
  let evL := slotInvoke SlotKind.lowBattery s.fCallbackLowBattery
    (JsVal.bool (jsLtNat s.reading.fBatteryLevel 10))
  let ev := evT ++ evH ++ evE ++ evB ++ evL
  let s := { s with
               fCallbackTemperature := none
               fCallbackHumidity := none
               fCallbackExtSensor := none
               fCallbackBatteryLevel := none
               fCallbackLowBattery := none }
  if bTimeout || s.bQueryStarted then ({ s with eState := EState.statusInvalid }, ev)
  else (s, ev)

/-- One execution of the do/while body: record the old state, run the
switch on the current state. -/
def smStep (ctx : Ctx) (bTimeout : Bool) (cDiscover : Option Advertisement)
    (s : MachineState) : Option (MachineState × List Event) :=
  let s := { s with eOldState := some s.eState }
  match s.eState with
  | EState.notReady => some (stepNotReady s)
  | EState.statusInvalid => some (stepStatusInvalid ctx s)
  | EState.scanning => stepScanning ctx bTimeout cDiscover s
  | EState.ready4answer => some (stepReady4answer bTimeout s)

/-- The do/while loop: rerun the switch until an iteration leaves the
state unchanged, consuming the timeout/discover flags after the first
body execution.  `fuel` bounds the iteration count (6 is enough for
every reachable chain, see the fixpoint theorems). -/
def smLoop : Nat → Ctx → Bool → Option Advertisement → MachineState →
    Option (MachineState × List Event)
  | 0, _, _, _, _ => none
  | fuel + 1, ctx, bTimeout, cDiscover, s =>
    match smStep ctx bTimeout cDiscover s with
    | none => none
    | some (s1, ev1) =>
      if s1.eOldState = some s1.eState then some (s1, ev1)
      else
        match smLoop fuel ctx false none s1 with
        | none => none
        | some (s2, ev2) => some (s2, ev1 ++ ev2)

/-- `RunStatemachine`: stop a fired timer, force `NOT_READY` when the
radio went off, then run the switch loop to fixpoint. -/
def RunStatemachine (ctx : Ctx) (bTimeout : Bool) (cDiscover : Option Advertisement)
    (s : MachineState) : Option (MachineState × List Event) :=
  let p0 := if bTimeout then stopTimeout s else (s, [])
  let p1 :=
    if ¬p0.1.bHWReady ∧ p0.1.eState ≠ EState.notReady then
      ({ p0.1 with eState := EState.notReady }, [Event.logHWWentOff, Event.stopScanning])
    else (p0.1, [])
  match smLoop 6 ctx bTimeout cDiscover p1.1 with
  | none => none
  | some (s2, ev2) => some (s2, p0.2 ++ p1.2 ++ ev2)

/-- Is this event an invocation of slot `k`? -/
def isInvokeOf (k : SlotKind) : Event → Bool
  | Event.invoke k' _ _ _ => decide (k' = k)
  | _ => false

/-- Number of invocations of slot `k` in a trace. -/
def invokeCount (k : SlotKind) (ev : List Event) : Nat :=
  (ev.filter (isInvokeOf k)).length

/-- No invocation event occurs in the trace. -/
def NoInvoke (ev : List Event) : Prop :=
  ∀ k c e v, Event.invoke k c e v ∉ ev

/-! ## Concrete fixtures used by witnesses and counterexamples -/

/-- A configuration selecting the `IBS-TH1` model, everything else default. -/
def cfgIBSTH1 : Config := ⟨some "IBS-TH1", none, none, none, none, none, none, none⟩

/-- The accessory context for a default `IBS-TH1` configuration. -/
def ctxIBSTH1 : Ctx := (constructorInit cfgIBSTH1).1

/-- A configuration selecting the dual-view `IBS-TH1-Plus` model. -/
def cfgIBSTH1Plus : Config :=
  ⟨some "IBS-TH1-Plus", none, none, none, none, none, none, none⟩

/-- The accessory context for a default `IBS-TH1-Plus` configuration. -/
def ctxIBSTH1Plus : Ctx := (constructorInit cfgIBSTH1Plus).1

/-- A configuration with a model name absent from `DDMODELS`. -/
def cfgUnknownModel : Config := ⟨some "IBS-XYZ", none, none, none, none, none, none, none⟩

/-- The accessory context for an unknown model name. -/
def ctxUnknownModel : Ctx := (constructorInit cfgUnknownModel).1

/-- A configuration selecting the accept-anything sentinel model. -/
def cfgSentinel : Config :=
  ⟨some "not in list - try it anyway", none, none, none, none, none, none, none⟩

/-- The accessory context for the sentinel model. -/
def ctxSentinel : Ctx := (constructorInit cfgSentinel).1

/-- `IBS-TH1` with a configured auto-refresh interval of 5 seconds. -/
def cfgInterval5 : Config := ⟨some "IBS-TH1", none, none, some 5, none, none, none, none⟩

/-- The accessory context for the 5-second-interval configuration. -/
def ctxInterval5 : Ctx := (constructorInit cfgInterval5).1

/-- A valid 9-byte frame: 25.00 °C, 50.00 %, internal sensor, correct
CRC-16/MODBUS `0x575B`, battery 80 %. -/
def frameGood : List Nat := [0xC4, 0x09, 0x88, 0x13, 0x00, 0x5B, 0x57, 0x50, 0x08]

/-- The same frame with the stored CRC zeroed out (a CRC mismatch). -/
def frameBadCrc : List Nat := [0xC4, 0x09, 0x88, 0x13, 0x00, 0x00, 0x00, 0x50, 0x08]

/-- A dual-view frame with the external flag set: bytes 0-1 encode
25.00 °C, bytes 5-6 encode 100.00 °C. -/
def frameDualExt : List Nat := [0xC4, 0x09, 0x88, 0x13, 0x01, 0x10, 0x27, 0x50, 0x08]

/-- A matching advertisement carrying `frameGood`. -/
def advGood : Advertisement := ⟨"aa:bb", some "sps", none, some "fff0", frameGood⟩

/-- A machine state: scanning, radio on, one pending temperature poll. -/
def stateScanning : MachineState :=
  ⟨EState.scanning, some EState.scanning, true, true, none, Reading.empty,
   some 15000, some (Cb.user 1), none, none, none, none⟩

/-! ## Helper lemmas -/

set_option maxRecDepth 100000

lemma ctxIBSTH1_eq :
    ctxIBSTH1 =
      ⟨SensorCfg.known ⟨9, "sps", none, "fff0", false⟩, false, "auto", "",
       none, 0, 0, 0, 3⟩ := by
  rfl

lemma ctxIBSTH1Plus_eq :
    ctxIBSTH1Plus =
      ⟨SensorCfg.known ⟨9, "sps", none, "fff0", true⟩, true, "auto", "",
       none, 0, 0, 0, 3⟩ := by
  rfl

lemma ctxUnknownModel_eq :
    ctxUnknownModel = ⟨SensorCfg.undefined, false, "auto", "", none, 0, 0, 0, 3⟩ := by
  rfl

lemma ctxSentinel_eq :
    ctxSentinel = ⟨SensorCfg.sentinel, false, "auto", "", none, 0, 0, 0, 3⟩ := by
  rfl

lemma ctxInterval5_eq :
    ctxInterval5 =
      ⟨SensorCfg.known ⟨9, "sps", none, "fff0", false⟩, false, "auto", "",
       some (max 5 5), 0, 0, 0, 3⟩ := by
  rfl

lemma crc_frameBadCrc :
    CRC16_0x18005 [196, 9, 136, 19, 0, 0, 0, 80, 8] 0 4 true true 0xFFFF 0 =
      some 22363 := by
  decide

lemma crc_frameGood :
    CRC16_0x18005 [196, 9, 136, 19, 0, 91, 87, 80, 8] 0 4 true true 0xFFFF 0 =
      some 22363 := by
  decide

/-- Any well-formed CRC call over bytes 0-4 of a 9-byte buffer yields a value. -/
lemma crc16_isSome (buf : List Nat) (h : 4 < buf.length) :
    ∃ v, CRC16_0x18005 buf 0 4 true true 0xFFFF 0 = some v := by
  simp [CRC16_0x18005, h]


/-! ### Bit-reflection: the modelled engine equals CRC-16/MODBUS -/

lemma reflectBits_lt (n c : Nat) : reflectBits n c < 2 ^ n := by
  induction n generalizing c with
  | zero => simp [reflectBits]
  | succ n ih =>
    have h1 : c % 2 ≤ 1 := Nat.le_of_lt_succ (Nat.mod_lt _ (by norm_num))
    have h2 : reflectBits n (c / 2) < 2 ^ n := ih (c / 2)
    have h3 : (c % 2) * 2 ^ n ≤ 2 ^ n := by
      calc (c % 2) * 2 ^ n ≤ 1 * 2 ^ n := Nat.mul_le_mul_right _ h1
      _ = 2 ^ n := one_mul _
    calc reflectBits (n + 1) c = (c % 2) * 2 ^ n + reflectBits n (c / 2) := rfl
    _ < 2 ^ n + 2 ^ n := by omega
    _ = 2 ^ (n + 1) := by ring

lemma testBit_reflectBits {n i : Nat} (c : Nat) (h : i < n) :
    (reflectBits n c).testBit i = c.testBit (n - 1 - i) := by
  induction n generalizing c i with
  | zero => exact absurd h (Nat.not_lt_zero i)
  | succ n ih =>
    have hcomm : reflectBits (n + 1) c = 2 ^ n * (c % 2) + reflectBits n (c / 2) := by
      show (c % 2) * 2 ^ n + reflectBits n (c / 2) = _
      ring
    rw [hcomm, Nat.testBit_mul_pow_two_add _ (reflectBits_lt n (c / 2)) i]
    by_cases hi : i < n
    · rw [if_pos hi, ih (c / 2) hi, Nat.testBit_div_two]
      congr 1
      omega
    · have hin : i = n := by omega
      subst hin
      rw [if_neg (lt_irrefl i)]
      have hmm : c % 2 % 2 = c % 2 := Nat.mod_mod_of_dvd _ dvd_rfl
      simp [Nat.testBit_zero, hmm, Nat.sub_self]

lemma reflect16_lt (c : Nat) : reflect16 c < 2 ^ 16 := reflectBits_lt 16 c

lemma testBit_reflect16 (c : Nat) {i : Nat} (h : i < 16) :
    (reflect16 c).testBit i = c.testBit (15 - i) := by
  have := testBit_reflectBits (n := 16) c h
  simpa using this

lemma reflect16_xor (a b : Nat) :
    reflect16 (a ^^^ b) = reflect16 a ^^^ reflect16 b := by
  apply Nat.eq_of_testBit_eq
  intro i
  by_cases hi : i < 16
  · rw [testBit_reflect16 _ hi, Nat.testBit_xor, Nat.testBit_xor,
      testBit_reflect16 _ hi, testBit_reflect16 _ hi]
  · push_neg at hi
    have h1 : reflect16 (a ^^^ b) < 2 ^ i :=
      lt_of_lt_of_le (reflect16_lt _) (Nat.pow_le_pow_right (by norm_num) hi)
    have h2 : reflect16 a ^^^ reflect16 b < 2 ^ i :=
      lt_of_lt_of_le (Nat.xor_lt_two_pow (reflect16_lt a) (reflect16_lt b))
        (Nat.pow_le_pow_right (by norm_num) hi)
    rw [Nat.testBit_lt_two_pow h1, Nat.testBit_lt_two_pow h2]

lemma reflect16_shift (c : Nat) :
    reflect16 (c * 2 % 2 ^ 16) = reflect16 c / 2 := by
  apply Nat.eq_of_testBit_eq
  intro i
  by_cases hi : i < 16
  · rw [testBit_reflect16 _ hi, Nat.testBit_mod_two_pow, Nat.testBit_div_two]
    have hle : 15 - i < 16 := by omega
    have hmul : c * 2 = c <<< 1 := by
      simp [Nat.shiftLeft_eq]
    by_cases hi15 : i < 15
    · have h116 : i + 1 < 16 := by omega
      rw [testBit_reflect16 _ h116, hmul, Nat.testBit_shiftLeft]
      have hge : 15 - i ≥ 1 := by omega
      have hidx : 15 - i - 1 = 15 - (i + 1) := by omega
      simp [hle, hge, hidx]
    · have hi' : i = 15 := by omega
      subst hi'
      have hrts : (reflect16 c).testBit (15 + 1) = false :=
        Nat.testBit_lt_two_pow (reflect16_lt c)
      rw [hrts, hmul, Nat.testBit_shiftLeft]
      simp
  · push_neg at hi
    have h1 : reflect16 (c * 2 % 2 ^ 16) < 2 ^ i :=
      lt_of_lt_of_le (reflect16_lt _) (Nat.pow_le_pow_right (by norm_num) hi)
    have h2 : reflect16 c / 2 < 2 ^ i := by
      have h3 := reflect16_lt c
      have h4 : reflect16 c / 2 < 2 ^ 16 := by omega
      exact lt_of_lt_of_le h4 (Nat.pow_le_pow_right (by norm_num) hi)
    rw [Nat.testBit_lt_two_pow h1, Nat.testBit_lt_two_pow h2]

lemma crcMsbRound_lt (c : Nat) : crcMsbRound c < 2 ^ 16 := by
  unfold crcMsbRound
  split
  · exact Nat.xor_lt_two_pow (Nat.mod_lt _ (by norm_num)) (by norm_num)
  · exact Nat.mod_lt _ (by norm_num)

lemma testBit15_iff (c : Nat) : c / 2 ^ 15 % 2 = 1 ↔ (reflect16 c) % 2 = 1 := by
  have h0 : (reflect16 c).testBit 0 = c.testBit 15 := by
    simpa using testBit_reflect16 c (i := 0) (by norm_num)
  have ht : c.testBit 15 = decide (c / 2 ^ 15 % 2 = 1) := Nat.testBit_to_div_mod
  have ht0 : (reflect16 c).testBit 0 = decide (reflect16 c % 2 = 1) := Nat.testBit_zero _
  constructor
  · intro h
    have hb : (reflect16 c).testBit 0 = true := by
      rw [h0, ht, h]
      simp
    simpa [ht0] using hb
  · intro h
    have hb : c.testBit 15 = true := by
      rw [← h0, ht0, h]
      simp
    simpa [ht] using hb

lemma round_commute (c : Nat) :
    reflect16 (crcMsbRound c) = crcLsbRound (reflect16 c) := by
  unfold crcMsbRound crcLsbRound
  by_cases hb : c / 2 ^ 15 % 2 = 1
  · rw [if_pos hb, if_pos ((testBit15_iff c).mp hb)]
    rw [reflect16_xor, reflect16_shift]
    have h85 : reflect16 0x8005 = 0xA001 := by decide
    rw [h85]
  · rw [if_neg hb, if_neg (fun h => hb ((testBit15_iff c).mpr h))]
    exact reflect16_shift c

lemma rounds_commute (n c : Nat) :
    reflect16 (crcMsbRounds n c) = crcLsbRounds n (reflect16 c) := by
  induction n generalizing c with
  | zero => rfl
  | succ n ih =>
    show reflect16 (crcMsbRounds n (crcMsbRound c)) =
      crcLsbRounds n (crcLsbRound (reflect16 c))
    rw [ih (crcMsbRound c), round_commute]

set_option maxRecDepth 2000000 in
lemma reflect16_reflect8_mul : ∀ b, b < 256 → reflect16 (reflect8 b * 2 ^ 8) = b := by
  decide

lemma mix_commute (c b : Nat) (hb : b < 256) :
    reflect16 (crcMixByte true c b) = crcLsbRounds 8 (reflect16 c ^^^ b) := by
  unfold crcMixByte
  have hif : (if true = true then reflect8 b else b) = reflect8 b := if_pos rfl
  rw [hif, rounds_commute, reflect16_xor, reflect16_reflect8_mul b hb]

lemma fold_commute (data : List Nat) (hdata : ∀ b ∈ data, b < 256) (c : Nat) :
    reflect16 (data.foldl (crcMixByte true) c) =
      data.foldl (fun d b => crcLsbRounds 8 (d ^^^ b)) (reflect16 c) := by
  induction data generalizing c with
  | nil => rfl
  | cons b bs ih =>
    show reflect16 (bs.foldl (crcMixByte true) (crcMixByte true c b)) = _
    rw [ih (fun x hx => hdata x (List.mem_cons_of_mem _ hx)) (crcMixByte true c b),
      mix_commute c b (hdata b (List.mem_cons_self _ _))]
    rfl

lemma reflect16_ffff : reflect16 0xFFFF = 0xFFFF := by decide

/-- The modelled checksum engine, at the parameterization used by the
decoder (reflect in/out, seed `0xFFFF`, final XOR 0, bytes 0-4), agrees
with the standard LSB-first CRC-16/MODBUS on the five data bytes of any
frame of genuine bytes. -/
theorem crc_reflected_eq_modbus (buf : List Nat) (h9 : 4 < buf.length)
    (hb : ∀ b ∈ buf.take 5, b < 256) :
    CRC16_0x18005 buf 0 4 true true 0xFFFF 0 = some (crc16_modbus (buf.take 5)) := by
  unfold CRC16_0x18005 crc16_modbus
  rw [if_pos ⟨h9, by norm_num⟩]
  simp only [List.drop_zero, Nat.reduceSub]
  have hmod : (0xFFFF : Nat) % 2 ^ 16 = 0xFFFF := by norm_num
  rw [hmod]
  have hfold := fold_commute (buf.take 5) hb 0xFFFF
  rw [reflect16_ffff] at hfold
  have hlt : reflect16 ((buf.take 5).foldl (crcMixByte true) 0xFFFF) < 2 ^ 16 :=
    reflect16_lt _
  have h5 : 4 + 1 - 0 = 5 := rfl
  simp only [if_true, h5, Nat.xor_zero]
  rw [Nat.mod_eq_of_lt hlt, hfold]

/-! ## Claim theorems -/

/-- **C1** (counterexample to the claim as stated): for the known
`IBS-TH1` variant and the concrete 9-byte frame
`C4 09 88 13 00 00 00 50 08`, whose stored CRC `0x0000` differs from the
computed CRC `22363`, `parseStatus` reports the checksum mismatch
(outcome flag `true`) and leaves every temperature field unpopulated,
**but** humidity, external-sensor flag and battery level *are* populated
— contradicting "no reading fields (temperature, humidity,
external-sensor flag, battery level) are populated". -/
theorem C1_counterexample :
    (parseStatus ctxIBSTH1 (some frameBadCrc)).map
      (fun p => (p.1.fIntHumidity.isSome, p.1.bExternalSensor.isSome,
        p.1.fBatteryLevel.isSome, p.1.fIntTemperature, p.1.fExtTemperature,
        p.1.fTemperature, p.2)) =
      some (true, true, true, none, none, none, true) := by
  simp [parseStatus, frameBadCrc, readUIntLE, readIntLE, leValue, crc_frameBadCrc,
    ctxIBSTH1_eq]

/-- **C1** (amended): for a 9-byte frame decoded under a known
(non-sentinel) variant outside the dual-view/external branch, a CRC-16
mismatch against the little-endian 16-bit value at bytes 5-6 makes the
decoder return early with a checksum-mismatch outcome and with all
temperature fields unpopulated; the external-sensor flag, the (clamped)
humidity and the battery level, however, have already been populated from
bytes 4, 2-3 and 7 before the CRC comparison runs. -/
theorem C1_crc_mismatch_skips_temperatures_only (ctx : Ctx)
    (b0 b1 b2 b3 b4 b5 b6 b7 b8 : Nat)
    (hk : ctx.dSensorCfg ≠ SensorCfg.sentinel)
    (hb : ¬(ctx.bDualViewSensor = true ∧ b4 = 1))
    (hcrc : CRC16_0x18005 [b0, b1, b2, b3, b4, b5, b6, b7, b8] 0 4 true true 0xFFFF 0 ≠
      some (b5 + 256 * b6)) :
    parseStatus ctx (some [b0, b1, b2, b3, b4, b5, b6, b7, b8]) =
      some (⟨none, none, none,
        some (if (if ((b2 + 256 * b3 : ℚ) + ctx.fOffsetIntHumidity) / 100 < 0 then 0
                  else ((b2 + 256 * b3 : ℚ) + ctx.fOffsetIntHumidity) / 100) > 100 then 100
              else (if ((b2 + 256 * b3 : ℚ) + ctx.fOffsetIntHumidity) / 100 < 0 then 0
                  else ((b2 + 256 * b3 : ℚ) + ctx.fOffsetIntHumidity) / 100)),
        some (b4 == 1), some b7⟩, true) := by
  obtain ⟨v, hv⟩ := crc16_isSome [b0, b1, b2, b3, b4, b5, b6, b7, b8] (by simp)
  have hne : v ≠ b5 + 256 * b6 := by
    rintro rfl
    exact hcrc hv
  have hcond : (ctx.bDualViewSensor && (b4 == 1)) = false := by
    by_cases hd : ctx.bDualViewSensor = true
    · have h4 : ¬ b4 = 1 := fun h => hb ⟨hd, h⟩
      simp [hd, h4]
    · simp [Bool.not_eq_true] at hd
      simp [hd]
  simp [parseStatus, readUIntLE, readIntLE, leValue, hv, hcond, hk, hne]
  exact fun hd h4 => hb ⟨hd, h4⟩

/-- **C1** witness: the amended theorem applied to the `IBS-TH1` context
and the concrete bad-CRC frame. -/
theorem C1_witness :
    (parseStatus ctxIBSTH1 (some [196, 9, 136, 19, 0, 0, 0, 80, 8])).map
      (fun p => (p.1.fIntTemperature, p.1.fExtTemperature, p.1.fTemperature, p.2)) =
      some (none, none, none, true) := by
  simp [C1_crc_mismatch_skips_temperatures_only ctxIBSTH1 196 9 136 19 0 0 0 80 8
    (by decide) (by decide) (by decide)]

/-- **C2** (counterexample to the claim as stated): for the dual-view
`IBS-TH1-Plus` variant and the frame `C4 09 88 13 01 10 27 50 08`
(bytes 0-1 encode 2500, bytes 5-6 encode 10000, flag external), the
decoder reports the *internal* temperature as 100 °C — taken from bytes
5-6 — and the *external* temperature as 25 °C — taken from bytes 0-1 —
the opposite of the claimed layout (internal from bytes 0-1, external
from bytes 5-6); no CRC outcome is reported. -/
theorem C2_counterexample :
    (parseStatus ctxIBSTH1Plus (some frameDualExt)).map
      (fun p => (p.1.fIntTemperature, p.1.fExtTemperature, p.2)) =
      some (some 100, some 25, false) ∧ (100 : ℚ) ≠ 25 := by
  constructor
  · simp [parseStatus, frameDualExt, readUIntLE, readIntLE, leValue, ctxIBSTH1Plus_eq,
      applySensorSelection, toSigned, clampTemperature]
    norm_num
  · norm_num

/-- **C2** (amended): for every 9-byte frame decoded for a dual-view
variant whose active-sensor flag (byte 4) reads external, the decoder
takes bytes **5-6** as the internal temperature and bytes **0-1** as the
external temperature (offset applied before the division by 100, then
clamped), and performs no CRC check on the frame: the decode succeeds
with no checksum-mismatch outcome for *every* value of bytes 5-6. -/
theorem C2_dual_view_external_layout (ctx : Ctx)
    (b0 b1 b2 b3 b4 b5 b6 b7 b8 : Nat)
    (hdual : ctx.bDualViewSensor = true) (hflag : b4 = 1) :
    parseStatus ctx (some [b0, b1, b2, b3, b4, b5, b6, b7, b8]) =
      some (⟨(applySensorSelection ctx.strSensor true
          (some (clampTemperature (((toSigned 2 (b5 + 256 * b6) : ℚ)
            + ctx.fOffsetIntTemperature) / 100)))
          (some (clampTemperature (((toSigned 2 (b0 + 256 * b1) : ℚ)
            + ctx.fOffsetExtTemperature) / 100)))).2,
        some (clampTemperature (((toSigned 2 (b5 + 256 * b6) : ℚ)
          + ctx.fOffsetIntTemperature) / 100)),
        some (clampTemperature (((toSigned 2 (b0 + 256 * b1) : ℚ)
          + ctx.fOffsetExtTemperature) / 100)),
        some (if (if ((b2 + 256 * b3 : ℚ) + ctx.fOffsetIntHumidity) / 100 < 0 then 0
                  else ((b2 + 256 * b3 : ℚ) + ctx.fOffsetIntHumidity) / 100) > 100 then 100
              else (if ((b2 + 256 * b3 : ℚ) + ctx.fOffsetIntHumidity) / 100 < 0 then 0
                  else ((b2 + 256 * b3 : ℚ) + ctx.fOffsetIntHumidity) / 100)),
        some (applySensorSelection ctx.strSensor true
          (some (clampTemperature (((toSigned 2 (b5 + 256 * b6) : ℚ)
            + ctx.fOffsetIntTemperature) / 100)))
          (some (clampTemperature (((toSigned 2 (b0 + 256 * b1) : ℚ)
            + ctx.fOffsetExtTemperature) / 100)))).1,
        some b7⟩, false) := by
  simp [parseStatus, readUIntLE, readIntLE, leValue, hdual, hflag]

/-- **C2** witness: the amended theorem applied to the dual-view context
and the concrete external-flag frame; both temperature fields are
populated and no checksum mismatch is reported. -/
theorem C2_witness :
    (parseStatus ctxIBSTH1Plus (some [196, 9, 136, 19, 1, 16, 39, 80, 8])).map
      (fun p => (p.1.fIntTemperature.isSome, p.1.fExtTemperature.isSome, p.2)) =
      some (true, true, false) := by
  simp [C2_dual_view_external_layout ctxIBSTH1Plus 196 9 136 19 1 16 39 80 8 rfl rfl]

/-- The temperature clamp is exactly a floor at -273.15 °C. -/
lemma clampTemperature_eq_max (x : ℚ) :
    clampTemperature x = max (-27315 / 100) x := by
  unfold clampTemperature
  rcases lt_or_le x (-27315 / 100) with h | h
  · simp [h, max_eq_left h.le]
  · simp [not_lt.mpr h, max_eq_right h]

/-- The two humidity clamp steps amount to clamping into [0, 100]. -/
lemma clampHumidity_eq (h0 : ℚ) :
    (if (if h0 < 0 then 0 else h0) > 100 then 100 else (if h0 < 0 then (0:ℚ) else h0)) =
      min 100 (max 0 h0) := by
  by_cases hneg : h0 < 0
  · have : ¬ ((0:ℚ) > 100) := by norm_num
    simp [hneg, this, max_eq_left hneg.le, min_eq_right]
  · push_neg at hneg
    by_cases hbig : h0 > 100
    · simp [not_lt.mpr hneg, hbig, max_eq_right hneg, min_eq_left hbig.le]
    · simp [not_lt.mpr hneg, hbig, max_eq_right hneg, min_eq_right (not_lt.mp hbig)]

/-- **C6**: for every decoded 9-byte frame, the humidity field is the
raw little-endian value of bytes 2-3 plus the configured offset, divided
by 100 and clamped into [0, 100]; every populated temperature field is a
raw signed field value plus the configured offset, divided by 100 and
floored at exactly -273.15 °C (never lower): the internal temperature
comes from bytes 5-6 (dual-view/external branch) or bytes 0-1 (plain
branch), the external temperature always from bytes 0-1. -/
theorem C6_offsets_then_scale_then_clamp (ctx : Ctx)
    (b0 b1 b2 b3 b4 b5 b6 b7 b8 : Nat) (r : Reading) (fl : Bool)
    (hp : parseStatus ctx (some [b0, b1, b2, b3, b4, b5, b6, b7, b8]) = some (r, fl)) :
    r.fIntHumidity =
      some (min 100 (max 0 (((b2 + 256 * b3 : ℚ) + ctx.fOffsetIntHumidity) / 100))) ∧
    (∀ h, r.fIntHumidity = some h → 0 ≤ h ∧ h ≤ 100) ∧
    (∀ t, r.fIntTemperature = some t →
      -27315 / 100 ≤ t ∧
      (t = max (-27315 / 100) (((toSigned 2 (b5 + 256 * b6) : ℚ) + ctx.fOffsetIntTemperature) / 100) ∨
       t = max (-27315 / 100) (((toSigned 2 (b0 + 256 * b1) : ℚ) + ctx.fOffsetIntTemperature) / 100))) ∧
    (∀ t, r.fExtTemperature = some t →
      -27315 / 100 ≤ t ∧
      t = max (-27315 / 100) (((toSigned 2 (b0 + 256 * b1) : ℚ) + ctx.fOffsetExtTemperature) / 100)) := by
  have hums : ∀ h : ℚ, 0 ≤ min 100 (max 0 h) ∧ min 100 (max 0 h) ≤ 100 := by
    intro h
    constructor
    · exact le_min (by norm_num) (le_max_left 0 h)
    · exact min_le_left _ _
  by_cases h4 : b4 = 1
  · subst h4
    by_cases hd : ctx.bDualViewSensor = true
    · simp [parseStatus, readUIntLE, readIntLE, leValue, hd] at hp
      obtain ⟨hr, hfl⟩ := hp
      subst hr
      refine ⟨by simp [clampHumidity_eq], ?_, ?_, ?_⟩
      · intro h hh
        simp [clampHumidity_eq] at hh
        exact hh ▸ hums _
      · intro t ht
        simp [clampTemperature_eq_max] at ht
        exact ⟨ht ▸ le_max_left _ _, Or.inl ht.symm⟩
      · intro t ht
        simp [clampTemperature_eq_max] at ht
        exact ⟨ht ▸ le_max_left _ _, ht.symm⟩
    · have hd' : ctx.bDualViewSensor = false := by
        simpa [Bool.not_eq_true] using hd
      obtain ⟨v, hv⟩ := crc16_isSome [b0, b1, b2, b3, 1, b5, b6, b7, b8] (by simp)
      simp only [parseStatus] at hp
      rw [hv] at hp
      by_cases hM : ctx.dSensorCfg ≠ SensorCfg.sentinel ∧ v ≠ b5 + 256 * b6
      · simp [readUIntLE, readIntLE, leValue, hd', hM.1, hM.2] at hp
        obtain ⟨hr, hfl⟩ := hp
        subst hr
        refine ⟨by simp [clampHumidity_eq], ?_, by simp, by simp⟩
        intro h hh
        simp [clampHumidity_eq] at hh
        exact hh ▸ hums _
      · simp [readUIntLE, readIntLE, leValue, hd', hM] at hp
        obtain ⟨hr, hfl⟩ := hp
        subst hr
        refine ⟨by simp [clampHumidity_eq], ?_, by simp, ?_⟩
        · intro h hh
          simp [clampHumidity_eq] at hh
          exact hh ▸ hums _
        · intro t ht
          simp [clampTemperature_eq_max] at ht
          exact ⟨ht ▸ le_max_left _ _, ht.symm⟩
  · obtain ⟨v, hv⟩ := crc16_isSome [b0, b1, b2, b3, b4, b5, b6, b7, b8] (by simp)
    simp only [parseStatus] at hp
    rw [hv] at hp
    by_cases hM : ctx.dSensorCfg ≠ SensorCfg.sentinel ∧ v ≠ b5 + 256 * b6
    · simp [readUIntLE, readIntLE, leValue, h4, hM.1, hM.2] at hp
      obtain ⟨hr, hfl⟩ := hp
      subst hr
      refine ⟨by simp [clampHumidity_eq], ?_, by simp, by simp⟩
      intro h hh
      simp [clampHumidity_eq] at hh
      exact hh ▸ hums _
    · simp [readUIntLE, readIntLE, leValue, h4, hM] at hp
      obtain ⟨hr, hfl⟩ := hp
      subst hr
      refine ⟨by simp [clampHumidity_eq], ?_, ?_, by simp⟩
      · intro h hh
        simp [clampHumidity_eq] at hh
        exact hh ▸ hums _
      · intro t ht
        simp [clampTemperature_eq_max] at ht
        exact ⟨ht ▸ le_max_left _ _, Or.inr ht.symm⟩

/-- **C6** witness: the clamp bounds instantiated via the theorem on the
`IBS-TH1` context and the concrete bad-CRC frame. -/
theorem C6_witness :
    0 ≤ min 100 (max 0 (((136 + 256 * 19 : ℚ) + ctxIBSTH1.fOffsetIntHumidity) / 100)) ∧
    min 100 (max 0 (((136 + 256 * 19 : ℚ) + ctxIBSTH1.fOffsetIntHumidity) / 100)) ≤ 100 := by
  obtain ⟨⟨r, fl⟩, hp⟩ :
      ∃ p, parseStatus ctxIBSTH1 (some [196, 9, 136, 19, 0, 0, 0, 80, 8]) = some p := by
    simp [parseStatus, readUIntLE, readIntLE, leValue, crc_frameBadCrc, ctxIBSTH1_eq]
  have h := C6_offsets_then_scale_then_clamp ctxIBSTH1 196 9 136 19 0 0 0 80 8 r fl hp
  exact h.2.1 _ h.1

/-- **C7**: the decoder validates each non-dual-view 9-byte frame by the
checksum engine called as `CRC16_0x18005(buf, 0, 4, true, true, 0xFFFF, 0)`
— a CRC-16 with polynomial 0x8005 (normal form 0x18005), seed 0xFFFF,
input and output bit-reflection, final XOR 0, over the five bytes 0-4 —
and compares it against the little-endian unsigned 16-bit value at bytes
5-6: that engine provably equals the standard CRC-16/MODBUS of bytes 0-4,
and the mismatch outcome is reported exactly when the MODBUS CRC differs
from the stored value. -/
theorem C7_crc_parameterization (ctx : Ctx) (b0 b1 b2 b3 b4 b5 b6 b7 b8 : Nat)
    (hk : ctx.dSensorCfg ≠ SensorCfg.sentinel)
    (hb : ¬(ctx.bDualViewSensor = true ∧ b4 = 1))
    (hbytes : ∀ b ∈ [b0, b1, b2, b3, b4], b < 256)
    (r : Reading) (fl : Bool)
    (hp : parseStatus ctx (some [b0, b1, b2, b3, b4, b5, b6, b7, b8]) = some (r, fl)) :
    readUIntLE [b0, b1, b2, b3, b4, b5, b6, b7, b8] 5 2 = some (b5 + 256 * b6) ∧
    CRC16_0x18005 [b0, b1, b2, b3, b4, b5, b6, b7, b8] 0 4 true true 0xFFFF 0 =
      some (crc16_modbus [b0, b1, b2, b3, b4]) ∧
    (fl = true ↔ crc16_modbus [b0, b1, b2, b3, b4] ≠ b5 + 256 * b6) := by
  have hread : readUIntLE [b0, b1, b2, b3, b4, b5, b6, b7, b8] 5 2 =
      some (b5 + 256 * b6) := by
    simp [readUIntLE, leValue]
  have hcrc : CRC16_0x18005 [b0, b1, b2, b3, b4, b5, b6, b7, b8] 0 4 true true 0xFFFF 0 =
      some (crc16_modbus [b0, b1, b2, b3, b4]) := by
    have hh := crc_reflected_eq_modbus [b0, b1, b2, b3, b4, b5, b6, b7, b8] (by simp)
      (by simpa using hbytes)
    simpa using hh
  refine ⟨hread, hcrc, ?_⟩
  simp only [parseStatus] at hp
  rw [hcrc] at hp
  by_cases h4 : b4 = 1
  · subst h4
    have hd' : ctx.bDualViewSensor = false := by
      by_cases hd : ctx.bDualViewSensor = true
      · exact absurd ⟨hd, rfl⟩ hb
      · simpa [Bool.not_eq_true] using hd
    by_cases hne : crc16_modbus [b0, b1, b2, b3, 1] = b5 + 256 * b6
    · simp [readUIntLE, readIntLE, leValue, hd', hne] at hp
      simp [← hp.2, hne]
    · simp [readUIntLE, readIntLE, leValue, hd', hk, hne] at hp
      simp [← hp.2, hne]
  · by_cases hne : crc16_modbus [b0, b1, b2, b3, b4] = b5 + 256 * b6
    · simp [readUIntLE, readIntLE, leValue, h4, hne] at hp
      simp [← hp.2, hne]
    · simp [readUIntLE, readIntLE, leValue, h4, hk, hne] at hp
      simp [← hp.2, hne]

/-- **C7** witness: the modelled engine agrees with CRC-16/MODBUS on the
concrete good frame, via the theorem applied to the `IBS-TH1` context. -/
theorem C7_witness :
    CRC16_0x18005 [196, 9, 136, 19, 0, 91, 87, 80, 8] 0 4 true true 0xFFFF 0 =
      some (crc16_modbus [196, 9, 136, 19, 0]) := by
  obtain ⟨⟨r, fl⟩, hp⟩ :
      ∃ p, parseStatus ctxIBSTH1 (some [196, 9, 136, 19, 0, 91, 87, 80, 8]) = some p := by
    simp [parseStatus, readUIntLE, readIntLE, leValue, crc_frameGood, ctxIBSTH1_eq]
  exact (C7_crc_parameterization ctxIBSTH1 196 9 136 19 0 91 87 80 8
    (by decide) (by decide) (by decide) r fl hp).2.1

/-- **C10**: for every configuration whose model maps to a variant with
`dualView = false`, the constructor forces the selection policy to
`"auto"` regardless of the configured `sensor` option, so the decoder
always resolves the reported flag and temperature from the frame's own
active-sensor byte: the channel-forcing branch can only take effect for
dual-view models. -/
theorem C10_non_dual_view_forces_auto (dConfig : Config) (mc : ModelCfg)
    (hm : DDMODELS (jsOrStr dConfig.model "") = SensorCfg.known mc)
    (hdv : mc.dualView = false) :
    (constructorInit dConfig).1.strSensor = "auto" ∧
    (∀ b0 b1 b2 b3 b4 b5 b6 b7 b8 : Nat, ∀ r : Reading, ∀ fl : Bool,
      parseStatus (constructorInit dConfig).1 (some [b0, b1, b2, b3, b4, b5, b6, b7, b8]) =
        some (r, fl) →
      r.bExternalSensor = some (b4 == 1) ∧
      r.fTemperature = (if b4 == 1 then r.fExtTemperature else r.fIntTemperature)) := by
  have hsens : (constructorInit dConfig).1.strSensor = "auto" := by
    simp [constructorInit, hm, hdv]
  have hdual : (constructorInit dConfig).1.bDualViewSensor = false := by
    simp [constructorInit, hm, hdv]
  refine ⟨hsens, ?_⟩
  intro b0 b1 b2 b3 b4 b5 b6 b7 b8 r fl hp
  obtain ⟨v, hv⟩ := crc16_isSome [b0, b1, b2, b3, b4, b5, b6, b7, b8] (by simp)
  simp only [parseStatus] at hp
  rw [hv] at hp
  by_cases hM : (constructorInit dConfig).1.dSensorCfg ≠ SensorCfg.sentinel ∧
      v ≠ b5 + 256 * b6
  · simp [readUIntLE, readIntLE, leValue, hdual, hM.1, hM.2] at hp
    obtain ⟨hr, hfl⟩ := hp
    subst hr
    by_cases h4 : b4 = 1
    · simp [h4]
    · simp [h4]
  · simp [readUIntLE, readIntLE, leValue, hdual, hM] at hp
    obtain ⟨hr, hfl⟩ := hp
    subst hr
    by_cases h4 : b4 = 1
    · simp [h4, applySensorSelection, hsens]
    · simp [h4, applySensorSelection, hsens]

/-- **C10** witness: instantiated on the non-dual-view `IBS-TH1`
configuration and the concrete good frame (internal flag): the policy is
`"auto"`, the reported flag follows byte 4, and the resolved temperature
is the internal one. -/
theorem C10_witness :
    (constructorInit cfgIBSTH1).1.strSensor = "auto" ∧
    (parseStatus (constructorInit cfgIBSTH1).1
      (some [196, 9, 136, 19, 0, 91, 87, 80, 8])).map
      (fun p => (p.1.bExternalSensor, p.1.fTemperature == p.1.fIntTemperature)) =
      some (some false, true) := by
  have h := C10_non_dual_view_forces_auto cfgIBSTH1 ⟨9, "sps", none, "fff0", false⟩
    (by decide) rfl
  refine ⟨h.1, ?_⟩
  have hctx : (constructorInit cfgIBSTH1).1 = ctxIBSTH1 := rfl
  obtain ⟨⟨r, fl⟩, hp⟩ :
      ∃ p, parseStatus (constructorInit cfgIBSTH1).1
        (some [196, 9, 136, 19, 0, 91, 87, 80, 8]) = some p := by
    rw [hctx]
    simp [parseStatus, readUIntLE, readIntLE, leValue, crc_frameGood, ctxIBSTH1_eq]
  have h2 := h.2 196 9 136 19 0 91 87 80 8 r fl hp
  simp [hp, h2.1, h2.2]

/-- The code's acceptance test for a known variant is exactly the
four-field advertisement-shape comparison. -/
lemma acceptCondition_known (mc : ModelCfg) (p : Advertisement) :
    acceptCondition (SensorCfg.known mc) p = advertisementMatches mc p := by
  simp [acceptCondition]

/-- The four-field comparison holds iff all four equalities hold. -/
lemma advertisementMatches_iff (mc : ModelCfg) (p : Advertisement) :
    advertisementMatches mc p = true ↔
      (p.manufacturerData.length = mc.datalength ∧
       p.localName = some mc.localName ∧
       p.serviceDat = mc.serviceDat ∧
       p.serviceUuids = some mc.serviceUuids) := by
  simp [advertisementMatches, and_assoc]

/-- **C5**: once the address check passes, a frame is stored under a
known variant iff all four of manufacturer-data length, local name,
service data and service UUIDs equal the variant's expectation (any
single mismatch rejects), while the sentinel variant stores the frame
unconditionally. -/
theorem C5_plausibility_filter (ctx : Ctx) (mc : ModelCfg) (p : Advertisement)
    (bT : Bool) (s : MachineState)
    (hcfg : ctx.dSensorCfg = SensorCfg.known mc)
    (haddr : p.address = ctx.strMAC ∨ ctx.strMAC = "") :
    (∀ s' ev, stepScanning ctx bT (some p) s = some (s', ev) →
      (s'.cRawStatus = some p.manufacturerData ↔
        (p.manufacturerData.length = mc.datalength ∧
         p.localName = some mc.localName ∧
         p.serviceDat = mc.serviceDat ∧
         p.serviceUuids = some mc.serviceUuids))) ∧
    (∀ ctx' s' ev, ctx'.dSensorCfg = SensorCfg.sentinel →
      (p.address = ctx'.strMAC ∨ ctx'.strMAC = "") →
      stepScanning ctx' bT (some p) s = some (s', ev) →
      s'.cRawStatus = some p.manufacturerData) := by
  constructor
  · intro s' ev hstep
    rw [stepScanning] at hstep
    simp only [scanDiscover] at hstep
    rw [hcfg] at hstep
    rw [acceptCondition_known] at hstep
    by_cases hacc : advertisementMatches mc p = true
    · cases hps : parseStatus ctx (some p.manufacturerData) with
      | none =>
        simp [haddr, hacc, stopTimeout, hps] at hstep
      | some q =>
        simp [haddr, hacc, stopTimeout, hps] at hstep
        obtain ⟨hs', hev⟩ := hstep
        subst hs'
        simpa using (advertisementMatches_iff mc p).mp hacc
    · have hmatch : advertisementMatches mc p = false := by
        simpa [Bool.not_eq_true] using hacc
      by_cases hmac : ctx.strMAC = "" <;>
        [skip; skip] <;>
      by_cases hbT : bT = true
      · simp [haddr, hmatch, hmac, hbT, stopTimeout, parseStatus] at hstep
        obtain ⟨hs', hev⟩ := hstep
        subst hs'
        constructor
        · intro hco
          simp at hco
        · intro hfour
          rw [(advertisementMatches_iff mc p).mpr hfour] at hmatch
          cases hmatch
      · have hbF : bT = false := by simpa [Bool.not_eq_true] using hbT
        subst hbF
        simp [haddr, hmatch, hmac, stopTimeout] at hstep
        obtain ⟨hs', hev⟩ := hstep
        subst hs'
        constructor
        · intro hco
          simp at hco
        · intro hfour
          rw [(advertisementMatches_iff mc p).mpr hfour] at hmatch
          cases hmatch
      · have haddr2 : p.address = ctx.strMAC := haddr.resolve_right hmac
        simp [haddr2, hmatch, hmac, hbT, stopTimeout, parseStatus] at hstep
        obtain ⟨hs', hev⟩ := hstep
        subst hs'
        constructor
        · intro hco
          simp at hco
        · intro hfour
          rw [(advertisementMatches_iff mc p).mpr hfour] at hmatch
          cases hmatch
      · have haddr2 : p.address = ctx.strMAC := haddr.resolve_right hmac
        have hbF : bT = false := by simpa [Bool.not_eq_true] using hbT
        subst hbF
        simp [haddr2, hmatch, hmac, stopTimeout] at hstep
        obtain ⟨hs', hev⟩ := hstep
        subst hs'
        constructor
        · intro hco
          simp at hco
        · intro hfour
          rw [(advertisementMatches_iff mc p).mpr hfour] at hmatch
          cases hmatch
  · intro ctx' s' ev hsent haddr' hstep
    rw [stepScanning] at hstep
    simp only [scanDiscover] at hstep
    rw [hsent] at hstep
    have hacc : acceptCondition SensorCfg.sentinel p = true := by
      simp [acceptCondition]
    cases hps : parseStatus ctx' (some p.manufacturerData) with
    | none =>
      simp [haddr', hacc, stopTimeout, hps] at hstep
    | some q =>
      simp [haddr', hacc, stopTimeout, hps] at hstep
      obtain ⟨hs', hev⟩ := hstep
      subst hs'
      rfl

/-- **C5** witness: a matching advertisement under the known `IBS-TH1`
variant with no configured MAC is accepted and its frame stored. -/
theorem C5_witness :
    (stepScanning ctxIBSTH1 false (some advGood) stateScanning).map
      (fun q => q.1.cRawStatus) = some (some frameGood) := by
  obtain ⟨⟨s', ev⟩, hstep⟩ :
      ∃ q, stepScanning ctxIBSTH1 false (some advGood) stateScanning = some q := by
    simp [stepScanning, scanDiscover, ctxIBSTH1_eq, advGood, acceptCondition,
      advertisementMatches, frameGood, stopTimeout, parseStatus, readUIntLE, readIntLE,
      leValue, crc_frameGood, stateScanning]
  have h := (C5_plausibility_filter ctxIBSTH1 ⟨9, "sps", none, "fff0", false⟩ advGood
    false stateScanning (by decide) (Or.inr rfl)).1 s' ev hstep
  rw [hstep]
  simp [h.mpr ⟨by decide, by decide, by decide, by decide⟩]
  rfl

/-- **C3** (counterexample to the claim as stated): in `Scanning`, a
discovery event carrying a perfectly matching advertisement is *never*
accepted under an unknown model name — the machine stays in `Scanning`
with no frame stored and no reading — whereas the very same event under
the accept-anything sentinel is accepted and decoded (battery 80
populated).  The unknown-model scheduler does **not** behave as with the
sentinel. -/
theorem C3_counterexample :
    (RunStatemachine ctxUnknownModel false (some advGood) stateScanning).map
      (fun q => (q.1.eState == EState.scanning, q.1.cRawStatus.isSome,
        q.1.reading.fBatteryLevel)) = some (true, false, none) ∧
    (RunStatemachine ctxSentinel false (some advGood) stateScanning).map
      (fun q => (q.1.eState == EState.ready4answer, q.1.reading.fBatteryLevel)) =
      some (true, some 80) := by
  constructor
  · simp [RunStatemachine, smLoop, smStep, stepScanning, scanDiscover, stopTimeout,
      ctxUnknownModel_eq, stateScanning, advGood, Reading.empty]
  · simp [RunStatemachine, smLoop, smStep, stepScanning, scanDiscover, stepReady4answer,
      slotInvoke, stopTimeout, fillSlot, parseStatus, readUIntLE, readIntLE, leValue,
      acceptCondition, advertisementMatches, ctxSentinel_eq, stateScanning, advGood,
      frameGood, qVal, boolVal, natVal, jsLtNat, jsOrQ, crc_frameGood]

/-- **C3** (amended): an unknown (non-sentinel) model name is logged as
an Error at startup for every configured log level; the stored sensor
config is `undefined`, and because the discovery branch requires a
defined config, the scanner then never accepts any discovered device: no
frame is ever stored and a timeout produces only the empty reading —
unlike the sentinel, which accepts unconditionally. -/
theorem C3_unknown_model_never_accepts (dConfig : Config)
    (hm : DDMODELS (jsOrStr dConfig.model "") = SensorCfg.undefined) :
    (constructorInit dConfig).2 = true ∧
    (constructorInit dConfig).1.dSensorCfg = SensorCfg.undefined ∧
    (∀ (ctx : Ctx) (bT : Bool) (p : Advertisement) (s : MachineState),
      ctx.dSensorCfg = SensorCfg.undefined →
      ∀ s' ev, stepScanning ctx bT (some p) s = some (s', ev) →
        s'.cRawStatus = none ∧ (bT = true → s'.reading = Reading.empty)) := by
  have h1 : 1 ≤ jsOrNat dConfig.loglevel 3 := by
    unfold jsOrNat
    split
    · split
      · omega
      · omega
    · omega
  refine ⟨by simp [constructorInit, hm, h1], by simp [constructorInit, hm], ?_⟩
  intro ctx bT p s hund s' ev hstep
  rw [stepScanning] at hstep
  simp only [scanDiscover] at hstep
  rw [hund] at hstep
  by_cases hbT : bT = true
  · simp [hbT, stopTimeout, parseStatus] at hstep
    obtain ⟨hs', hev⟩ := hstep
    subst hs'
    simp
  · have hbF : bT = false := by simpa [Bool.not_eq_true] using hbT
    subst hbF
    simp [stopTimeout] at hstep
    obtain ⟨hs', hev⟩ := hstep
    subst hs'
    simp

/-- **C3** witness: the amended theorem instantiated on the concrete
unknown-model configuration `IBS-XYZ`, a matching advertisement and a
scanning state with a pending poll. -/
theorem C3_witness :
    (constructorInit cfgUnknownModel).2 = true ∧
    (stepScanning ctxUnknownModel true (some advGood) stateScanning).map
      (fun q => (q.1.cRawStatus, q.1.reading == Reading.empty)) =
      some (none, true) := by
  have h := C3_unknown_model_never_accepts cfgUnknownModel (by decide)
  refine ⟨h.1, ?_⟩
  obtain ⟨⟨s', ev⟩, hstep⟩ :
      ∃ q, stepScanning ctxUnknownModel true (some advGood) stateScanning = some q := by
    simp [stepScanning, scanDiscover, ctxUnknownModel_eq, stateScanning, advGood,
      stopTimeout, parseStatus]
  have h2 := h.2.2 ctxUnknownModel true advGood stateScanning (by decide) s' ev hstep
  simp [hstep, h2.1, h2.2 rfl]

/-- The discovery block touches only `cRawStatus`: every other field of
the machine state passes through unchanged. -/
lemma scanDiscover_invariants (ctx : Ctx) (cD : Option Advertisement) (s : MachineState) :
    (scanDiscover ctx cD s).1.eState = s.eState ∧
    (scanDiscover ctx cD s).1.iTimeoutId = s.iTimeoutId ∧
    (scanDiscover ctx cD s).1.bQueryStarted = s.bQueryStarted ∧
    (scanDiscover ctx cD s).1.reading = s.reading ∧
    (scanDiscover ctx cD s).1.bHWReady = s.bHWReady ∧
    (scanDiscover ctx cD s).1.eOldState = s.eOldState ∧
    (scanDiscover ctx cD s).1.fCallbackTemperature = s.fCallbackTemperature ∧
    (scanDiscover ctx cD s).1.fCallbackHumidity = s.fCallbackHumidity ∧
    (scanDiscover ctx cD s).1.fCallbackExtSensor = s.fCallbackExtSensor ∧
    (scanDiscover ctx cD s).1.fCallbackBatteryLevel = s.fCallbackBatteryLevel ∧
    (scanDiscover ctx cD s).1.fCallbackLowBattery = s.fCallbackLowBattery := by
  cases cD with
  | none => simp [scanDiscover]
  | some p =>
    simp only [scanDiscover]
    split
    · split
      · split
        · simp
        · split
          · simp
          · simp
      · simp
    · simp

/-- **C4** (counterexample to the claim as stated): with a configured
auto-refresh interval of 5 seconds (the internal minimum), the timer
armed on the Scanning→ReadingReady transition is 5000 ms — not the
10000 ms the claimed `max(configured_interval, 10)` formula requires. -/
theorem C4_counterexample :
    (RunStatemachine ctxInterval5 true none stateScanning).map
      (fun q => q.1.iTimeoutId) = some (some 5000) ∧ (5000 : ℚ) ≠ 10000 := by
  constructor
  · have hmax : max (5:ℚ) 5 = 5 := max_self 5
    have h50 : (5:ℚ) ≠ 0 := by norm_num
    simp [RunStatemachine, smLoop, smStep, stepScanning, scanDiscover, stepReady4answer,
      slotInvoke, stopTimeout, fillSlot, parseStatus, ctxInterval5_eq, stateScanning,
      Reading.empty, jsOrQ, hmax, h50]
    norm_num
  · norm_num

/-- **C4** (amended): the freshness timer armed on the
Scanning→ReadingReady transition has duration `(iUpdateInt || 10) * 1000`
milliseconds: exactly the configured interval (clamped to
a minimum of 5 s by the constructor) when one is configured — even when
that is below 10 s — and 10 s only when no interval is configured. -/
theorem C4_freshness_timer_duration (dConfig : Config) (bT : Bool)
    (cD : Option Advertisement) (s : MachineState)
    (hscan : s.eState = EState.scanning) :
    (∀ s' ev, stepScanning (constructorInit dConfig).1 bT cD s = some (s', ev) →
      s'.eState = EState.ready4answer →
      s'.iTimeoutId = some (jsOrQ (constructorInit dConfig).1.iUpdateInt 10 * 1000)) ∧
    (dConfig.update_interval = none →
      jsOrQ (constructorInit dConfig).1.iUpdateInt 10 * 1000 = 10 * 1000) ∧
    (∀ u : ℚ, dConfig.update_interval = some u →
      jsOrQ (constructorInit dConfig).1.iUpdateInt 10 * 1000 = max 5 u * 1000) := by
  refine ⟨?_, ?_, ?_⟩
  · intro s' ev hstep hr
    rw [stepScanning] at hstep
    rcases hsd : scanDiscover (constructorInit dConfig).1 cD
        { s with cRawStatus := none } with ⟨s1, ev1⟩
    rw [hsd] at hstep
    dsimp only at hstep
    have hinv := scanDiscover_invariants (constructorInit dConfig).1 cD
      { s with cRawStatus := none }
    rw [hsd] at hinv
    by_cases hexit : (bT || s1.cRawStatus.isSome) = true
    · rw [if_pos hexit] at hstep
      cases hps : parseStatus (constructorInit dConfig).1 s1.cRawStatus with
      | none =>
        rw [stopTimeout] at hstep
        simp [hps] at hstep
      | some q =>
        rw [stopTimeout] at hstep
        simp [hps] at hstep
        obtain ⟨hs', hev⟩ := hstep
        subst hs'
        rfl
    · rw [if_neg (by simpa using hexit)] at hstep
      simp at hstep
      obtain ⟨hs', hev⟩ := hstep
      subst hs'
      rw [hinv.1] at hr
      simp [hscan] at hr
  · intro hnone
    simp [constructorInit, hnone, jsOrQ]
  · intro u hu
    have h5 : max 5 u ≠ 0 := by
      have hle : (5:ℚ) ≤ max 5 u := le_max_left _ _
      intro h
      rw [h] at hle
      norm_num at hle
    simp [constructorInit, hu, jsOrQ, h5]

/-- **C4** witness: the amended theorem instantiated on the concrete
5-second-interval configuration: the armed freshness timer equals
`max 5 5 * 1000` ms. -/
theorem C4_witness :
    (stepScanning (constructorInit cfgInterval5).1 true none stateScanning).map
      (fun q => q.1.iTimeoutId) =
      some (some (jsOrQ (constructorInit cfgInterval5).1.iUpdateInt 10 * 1000)) ∧
    jsOrQ (constructorInit cfgInterval5).1.iUpdateInt 10 * 1000 = max 5 5 * 1000 := by
  have h := C4_freshness_timer_duration cfgInterval5 true none stateScanning rfl
  refine ⟨?_, h.2.2 5 rfl⟩
  obtain ⟨⟨s', ev⟩, hstep⟩ :
      ∃ q, stepScanning (constructorInit cfgInterval5).1 true none stateScanning =
        some q := by
    simp [stepScanning, scanDiscover, stopTimeout, parseStatus, stateScanning]
  have hstate :
      (stepScanning (constructorInit cfgInterval5).1 true none stateScanning).map
        (fun q => q.1.eState) = some EState.ready4answer := by
    simp [stepScanning, scanDiscover, stopTimeout, parseStatus, stateScanning]
  rw [hstep] at hstate ⊢
  simp at hstate
  simp [h.1 s' ev hstep hstate]

end Inkbird
namespace Inkbird

lemma invokeCount_append (k : SlotKind) (a b : List Event) :
    invokeCount k (a ++ b) = invokeCount k a + invokeCount k b := by
  simp [invokeCount, List.filter_append]

lemma invokeCount_slotInvoke_le (k k' : SlotKind) (o : Option Cb) (v : JsVal) :
    invokeCount k (slotInvoke k' o v) ≤ 1 := by
  cases o <;> simp [slotInvoke, invokeCount, isInvokeOf, List.filter] <;> split <;> simp

lemma invokeCount_slotInvoke_ne (k k' : SlotKind) (o : Option Cb) (v : JsVal)
    (h : k' ≠ k) : invokeCount k (slotInvoke k' o v) = 0 := by
  cases o <;> simp [slotInvoke, invokeCount, isInvokeOf, h]

lemma slotInvoke_err (k' : SlotKind) (o : Option Cb) (v : JsVal)
    (k : SlotKind) (c : Cb) (e : Option String) (w : JsVal)
    (h : Event.invoke k c e w ∈ slotInvoke k' o v) : e = none := by
  cases o with
  | none => simp [slotInvoke] at h
  | some c' =>
    simp [slotInvoke] at h
    exact h.2.2.1

lemma slotInvoke_mem (k : SlotKind) (o : Option Cb) (v : JsVal) (c : Cb)
    (h : o = some c) : Event.invoke k c none v ∈ slotInvoke k o v := by
  subst h
  simp [slotInvoke]

lemma stepReady4answer_state (bT : Bool) (s : MachineState) :
    (stepReady4answer bT s).1.fCallbackTemperature = none ∧
    (stepReady4answer bT s).1.fCallbackHumidity = none ∧
    (stepReady4answer bT s).1.fCallbackExtSensor = none ∧
    (stepReady4answer bT s).1.fCallbackBatteryLevel = none ∧
    (stepReady4answer bT s).1.fCallbackLowBattery = none ∧
    (stepReady4answer bT s).1.eOldState = s.eOldState ∧
    ((stepReady4answer bT s).1.eState = EState.statusInvalid ∨
     (stepReady4answer bT s).1.eState = s.eState) := by
  unfold stepReady4answer
  dsimp only
  split <;> simp

lemma stepReady4answer_err (bT : Bool) (s : MachineState)
    (k : SlotKind) (c : Cb) (e : Option String) (w : JsVal)
    (h : Event.invoke k c e w ∈ (stepReady4answer bT s).2) : e = none := by
  have hev : (stepReady4answer bT s).2 =
      slotInvoke SlotKind.temperature s.fCallbackTemperature (qVal s.reading.fTemperature) ++
      slotInvoke SlotKind.humidity s.fCallbackHumidity (qVal s.reading.fIntHumidity) ++
      slotInvoke SlotKind.extSensor s.fCallbackExtSensor (boolVal s.reading.bExternalSensor) ++
      slotInvoke SlotKind.batteryLevel s.fCallbackBatteryLevel (natVal s.reading.fBatteryLevel) ++
      slotInvoke SlotKind.lowBattery s.fCallbackLowBattery
        (JsVal.bool (jsLtNat s.reading.fBatteryLevel 10)) := by
    unfold stepReady4answer
    dsimp only
    split <;> simp
  rw [hev] at h
  simp only [List.mem_append] at h
  rcases h with ((((h | h) | h) | h) | h)
  · exact slotInvoke_err _ _ _ _ _ _ _ h
  · exact slotInvoke_err _ _ _ _ _ _ _ h
  · exact slotInvoke_err _ _ _ _ _ _ _ h
  · exact slotInvoke_err _ _ _ _ _ _ _ h
  · exact slotInvoke_err _ _ _ _ _ _ _ h

lemma stepReady4answer_count (bT : Bool) (s : MachineState) (k : SlotKind) :
    invokeCount k (stepReady4answer bT s).2 ≤ 1 := by
  have hev : (stepReady4answer bT s).2 =
      slotInvoke SlotKind.temperature s.fCallbackTemperature (qVal s.reading.fTemperature) ++
      slotInvoke SlotKind.humidity s.fCallbackHumidity (qVal s.reading.fIntHumidity) ++
      slotInvoke SlotKind.extSensor s.fCallbackExtSensor (boolVal s.reading.bExternalSensor) ++
      slotInvoke SlotKind.batteryLevel s.fCallbackBatteryLevel (natVal s.reading.fBatteryLevel) ++
      slotInvoke SlotKind.lowBattery s.fCallbackLowBattery
        (JsVal.bool (jsLtNat s.reading.fBatteryLevel 10)) := by
    unfold stepReady4answer
    dsimp only
    split <;> simp
  rw [hev]
  simp only [invokeCount_append]
  cases k
  · have h2 := invokeCount_slotInvoke_ne SlotKind.temperature SlotKind.humidity
      s.fCallbackHumidity (qVal s.reading.fIntHumidity) (by decide)
    have h3 := invokeCount_slotInvoke_ne SlotKind.temperature SlotKind.extSensor
      s.fCallbackExtSensor (boolVal s.reading.bExternalSensor) (by decide)
    have h4 := invokeCount_slotInvoke_ne SlotKind.temperature SlotKind.batteryLevel
      s.fCallbackBatteryLevel (natVal s.reading.fBatteryLevel) (by decide)
    have h5 := invokeCount_slotInvoke_ne SlotKind.temperature SlotKind.lowBattery
      s.fCallbackLowBattery (JsVal.bool (jsLtNat s.reading.fBatteryLevel 10)) (by decide)
    have h1 := invokeCount_slotInvoke_le SlotKind.temperature SlotKind.temperature
      s.fCallbackTemperature (qVal s.reading.fTemperature)
    omega
  · have h1 := invokeCount_slotInvoke_ne SlotKind.humidity SlotKind.temperature
      s.fCallbackTemperature (qVal s.reading.fTemperature) (by decide)
    have h3 := invokeCount_slotInvoke_ne SlotKind.humidity SlotKind.extSensor
      s.fCallbackExtSensor (boolVal s.reading.bExternalSensor) (by decide)
    have h4 := invokeCount_slotInvoke_ne SlotKind.humidity SlotKind.batteryLevel
      s.fCallbackBatteryLevel (natVal s.reading.fBatteryLevel) (by decide)
    have h5 := invokeCount_slotInvoke_ne SlotKind.humidity SlotKind.lowBattery
      s.fCallbackLowBattery (JsVal.bool (jsLtNat s.reading.fBatteryLevel 10)) (by decide)
    have h2 := invokeCount_slotInvoke_le SlotKind.humidity SlotKind.humidity
      s.fCallbackHumidity (qVal s.reading.fIntHumidity)
    omega
  · have h1 := invokeCount_slotInvoke_ne SlotKind.extSensor SlotKind.temperature
      s.fCallbackTemperature (qVal s.reading.fTemperature) (by decide)
    have h2 := invokeCount_slotInvoke_ne SlotKind.extSensor SlotKind.humidity
      s.fCallbackHumidity (qVal s.reading.fIntHumidity) (by decide)
    have h4 := invokeCount_slotInvoke_ne SlotKind.extSensor SlotKind.batteryLevel
      s.fCallbackBatteryLevel (natVal s.reading.fBatteryLevel) (by decide)
    have h5 := invokeCount_slotInvoke_ne SlotKind.extSensor SlotKind.lowBattery
      s.fCallbackLowBattery (JsVal.bool (jsLtNat s.reading.fBatteryLevel 10)) (by decide)
    have h3 := invokeCount_slotInvoke_le SlotKind.extSensor SlotKind.extSensor
      s.fCallbackExtSensor (boolVal s.reading.bExternalSensor)
    omega
  · have h1 := invokeCount_slotInvoke_ne SlotKind.batteryLevel SlotKind.temperature
      s.fCallbackTemperature (qVal s.reading.fTemperature) (by decide)
    have h2 := invokeCount_slotInvoke_ne SlotKind.batteryLevel SlotKind.humidity
      s.fCallbackHumidity (qVal s.reading.fIntHumidity) (by decide)
    have h3 := invokeCount_slotInvoke_ne SlotKind.batteryLevel SlotKind.extSensor
      s.fCallbackExtSensor (boolVal s.reading.bExternalSensor) (by decide)
    have h5 := invokeCount_slotInvoke_ne SlotKind.batteryLevel SlotKind.lowBattery
      s.fCallbackLowBattery (JsVal.bool (jsLtNat s.reading.fBatteryLevel 10)) (by decide)
    have h4 := invokeCount_slotInvoke_le SlotKind.batteryLevel SlotKind.batteryLevel
      s.fCallbackBatteryLevel (natVal s.reading.fBatteryLevel)
    omega
  · have h1 := invokeCount_slotInvoke_ne SlotKind.lowBattery SlotKind.temperature
      s.fCallbackTemperature (qVal s.reading.fTemperature) (by decide)
    have h2 := invokeCount_slotInvoke_ne SlotKind.lowBattery SlotKind.humidity
      s.fCallbackHumidity (qVal s.reading.fIntHumidity) (by decide)
    have h3 := invokeCount_slotInvoke_ne SlotKind.lowBattery SlotKind.extSensor
      s.fCallbackExtSensor (boolVal s.reading.bExternalSensor) (by decide)
    have h4 := invokeCount_slotInvoke_ne SlotKind.lowBattery SlotKind.batteryLevel
      s.fCallbackBatteryLevel (natVal s.reading.fBatteryLevel) (by decide)
    have h5 := invokeCount_slotInvoke_le SlotKind.lowBattery SlotKind.lowBattery
      s.fCallbackLowBattery (JsVal.bool (jsLtNat s.reading.fBatteryLevel 10))
    omega

end Inkbird
namespace Inkbird

lemma invokeCount_eq_zero (k : SlotKind) (ev : List Event)
    (h : NoInvoke ev) : invokeCount k ev = 0 := by
  simp only [invokeCount, List.length_eq_zero]
  rw [List.filter_eq_nil]
  intro e he
  cases e with
  | invoke k' c er v => exact absurd he (h k' c er v)
  | _ => simp [isInvokeOf]

lemma NoInvoke_append (a b : List Event) (ha : NoInvoke a) (hb : NoInvoke b) :
    NoInvoke (a ++ b) := by
  intro k c e v hm
  rcases List.mem_append.mp hm with h | h
  · exact ha k c e v h
  · exact hb k c e v h

lemma stopTimeout_noInvoke (s : MachineState) : NoInvoke (stopTimeout s).2 := by
  intro k c e v hm
  unfold stopTimeout at hm
  rcases hs : s.iTimeoutId with _ | t <;> rw [hs] at hm <;> simp at hm

lemma scanDiscover_noInvoke (ctx : Ctx) (cD : Option Advertisement) (s : MachineState) :
    NoInvoke (scanDiscover ctx cD s).2 := by
  intro k c e v hm
  cases cD with
  | none => simp [scanDiscover] at hm
  | some p =>
    simp only [scanDiscover] at hm
    split at hm
    · split at hm
      · split at hm
        · simp at hm
        · split at hm
          · simp at hm
          · simp at hm
      · simp at hm
    · simp at hm

lemma stepNotReady_noInvoke (s : MachineState) : NoInvoke (stepNotReady s).2 := by
  intro k c e v hm
  unfold stepNotReady at hm
  dsimp only at hm
  split at hm <;> simp at hm <;> exact stopTimeout_noInvoke s k c e v (by simp [hm])

end Inkbird
namespace Inkbird

lemma stepStatusInvalid_noInvoke (ctx : Ctx) (s : MachineState) :
    NoInvoke (stepStatusInvalid ctx s).2 := by
  intro k c e v hm
  unfold stepStatusInvalid at hm
  dsimp only at hm
  split at hm <;> simp at hm <;> exact stopTimeout_noInvoke s k c e v (by simp [hm])

lemma stepScanning_noInvoke (ctx : Ctx) (bT : Bool) (cD : Option Advertisement)
    (s : MachineState) (s1 : MachineState) (ev1 : List Event)
    (h : stepScanning ctx bT cD s = some (s1, ev1)) : NoInvoke ev1 := by
  intro k c e v hm
  rw [stepScanning] at h
  rcases hsd : scanDiscover ctx cD { s with cRawStatus := none } with ⟨sd, evd⟩
  rw [hsd] at h
  dsimp only at h
  have hnd : NoInvoke evd := by
    have hh := scanDiscover_noInvoke ctx cD { s with cRawStatus := none }
    rw [hsd] at hh
    exact hh
  split at h
  · rw [stopTimeout] at h
    rcases hps : parseStatus ctx sd.cRawStatus with _ | q
    · simp [hps] at h
    · by_cases hraw : sd.cRawStatus = none
      all_goals rcases hti : sd.iTimeoutId with _ | t
      all_goals cases hq2 : q.2
      all_goals try rw [hraw] at hps
      all_goals simp [hps, hraw, hti, hq2] at h
      all_goals
        first
        | (obtain ⟨hs1, hev⟩ := h
           subst hev
           simp at hm
           exact hnd k c e v hm)
        | (obtain ⟨hs1, hev⟩ := h
           subst hev
           exact hnd k c e v hm)
        | (simp at hm
           exact hnd k c e v hm)
  · simp at h
    obtain ⟨hs1, hev⟩ := h
    rw [← hev] at hm
    exact hnd k c e v hm
end Inkbird
namespace Inkbird

lemma smStep_notReady (ctx : Ctx) (bT : Bool) (cD : Option Advertisement)
    (s : MachineState) (h : s.eState = EState.notReady) :
    smStep ctx bT cD s = some (stepNotReady { s with eOldState := some EState.notReady }) := by
  unfold smStep
  rw [h]

lemma smStep_statusInvalid (ctx : Ctx) (bT : Bool) (cD : Option Advertisement)
    (s : MachineState) (h : s.eState = EState.statusInvalid) :
    smStep ctx bT cD s =
      some (stepStatusInvalid ctx { s with eOldState := some EState.statusInvalid }) := by
  unfold smStep
  rw [h]

lemma smStep_scanning (ctx : Ctx) (bT : Bool) (cD : Option Advertisement)
    (s : MachineState) (h : s.eState = EState.scanning) :
    smStep ctx bT cD s =
      stepScanning ctx bT cD { s with eOldState := some EState.scanning } := by
  unfold smStep
  rw [h]

lemma smStep_ready4answer (ctx : Ctx) (bT : Bool) (cD : Option Advertisement)
    (s : MachineState) (h : s.eState = EState.ready4answer) :
    smStep ctx bT cD s =
      some (stepReady4answer bT { s with eOldState := some EState.ready4answer }) := by
  unfold smStep
  rw [h]

end Inkbird
namespace Inkbird

lemma smLoop_fixpoint (fuel : Nat) (ctx : Ctx) (bT : Bool) (cD : Option Advertisement)
    (s s' : MachineState) (ev : List Event)
    (h : smLoop fuel ctx bT cD s = some (s', ev)) : s'.eOldState = some s'.eState := by
  induction fuel generalizing bT cD s ev with
  | zero => simp [smLoop] at h
  | succ n ih =>
    rw [smLoop] at h
    rcases hst : smStep ctx bT cD s with _ | ⟨s1, ev1⟩
    · rw [hst] at h
      simp at h
    · rw [hst] at h
      dsimp only at h
      by_cases hfix : s1.eOldState = some s1.eState
      · rw [if_pos hfix] at h
        simp at h
        obtain ⟨h1, h2⟩ := h
        subst h1
        exact hfix
      · rw [if_neg hfix] at h
        rcases hrec : smLoop n ctx false none s1 with _ | ⟨s2, ev2⟩
        · rw [hrec] at h
          simp at h
        · rw [hrec] at h
          simp at h
          obtain ⟨h1, h2⟩ := h
          subst h1
          exact ih false none s1 ev2 hrec

lemma smLoop_scanning_ff (n : Nat) (ctx : Ctx) (s : MachineState)
    (h : s.eState = EState.scanning) :
    smLoop (n + 1) ctx false none s =
      some ({ s with eOldState := some EState.scanning, cRawStatus := none }, []) := by
  rw [smLoop, smStep_scanning ctx false none s h]
  rw [stepScanning]
  simp [scanDiscover, h]

end Inkbird
namespace Inkbird

lemma stepNotReady_cases (s : MachineState) :
    (stepNotReady s).1.eState = EState.statusInvalid ∨
    (stepNotReady s).1.eState = s.eState := by
  unfold stepNotReady
  dsimp only
  split <;> simp [stopTimeout]

lemma stepStatusInvalid_cases (ctx : Ctx) (s : MachineState) :
    (stepStatusInvalid ctx s).1.eState = EState.scanning ∨
    (stepStatusInvalid ctx s).1.eState = s.eState := by
  unfold stepStatusInvalid
  dsimp only
  split <;> simp [stopTimeout]

lemma parseStatus_total9 (ctx : Ctx) (buf : List Nat) (h9 : buf.length = 9) :
    ∃ q, parseStatus ctx (some buf) = some q := by
  rcases buf with _ | ⟨b0, _ | ⟨b1, _ | ⟨b2, _ | ⟨b3, _ | ⟨b4, _ | ⟨b5, _ | ⟨b6, _ | ⟨b7, _ | ⟨b8, rest⟩⟩⟩⟩⟩⟩⟩⟩⟩ <;>
    simp at h9
  subst h9
  obtain ⟨v, hv⟩ := crc16_isSome [b0, b1, b2, b3, b4, b5, b6, b7, b8] (by simp)
  simp only [parseStatus]
  rw [hv]
  simp [readUIntLE, readIntLE, leValue]
  split
  · simp
  · split
    · simp
    · simp

end Inkbird
namespace Inkbird

lemma scanDiscover_craw (ctx : Ctx) (cD : Option Advertisement) (s : MachineState) :
    (scanDiscover ctx cD s).1.cRawStatus = s.cRawStatus ∨
    (∃ p, cD = some p ∧
      (scanDiscover ctx cD s).1.cRawStatus = some p.manufacturerData) := by
  cases cD with
  | none => simp [scanDiscover]
  | some p =>
    simp only [scanDiscover]
    split
    · split
      · split
        · exact Or.inr ⟨p, rfl, rfl⟩
        · split
          · simp
          · simp
      · simp
    · simp

lemma stepScanning_total (ctx : Ctx) (bT : Bool) (cD : Option Advertisement)
    (s : MachineState)
    (hcd : cD = none ∨ ∃ adv, cD = some adv ∧ adv.manufacturerData.length = 9) :
    ∃ r, stepScanning ctx bT cD s = some r := by
  rw [stepScanning]
  rcases hsd : scanDiscover ctx cD { s with cRawStatus := none } with ⟨sd, evd⟩
  dsimp only
  have hparse : ∃ q, parseStatus ctx sd.cRawStatus = some q := by
    rcases scanDiscover_craw ctx cD { s with cRawStatus := none } with hc | ⟨p, hp, hc⟩
    · rw [hsd] at hc
      simp at hc
      rw [hc]
      exact ⟨(Reading.empty, false), rfl⟩
    · rw [hsd] at hc
      simp at hc
      rcases hcd with h1 | ⟨adv, ha, h9⟩
      · rw [h1] at hp
        cases hp
      · rw [ha] at hp
        have hpa : p = adv := by
          injection hp with hpa
          exact hpa.symm
        subst hpa
        rw [hc]
        exact parseStatus_total9 ctx p.manufacturerData h9
  obtain ⟨q, hq⟩ := hparse
  split
  · rw [stopTimeout]
    simp [hq]
  · simp

end Inkbird
namespace Inkbird

lemma stepNotReady_eOld (s : MachineState) :
    (stepNotReady s).1.eOldState = s.eOldState := by
  unfold stepNotReady
  dsimp only
  split <;> simp [stopTimeout]

lemma stepStatusInvalid_eOld (ctx : Ctx) (s : MachineState) :
    (stepStatusInvalid ctx s).1.eOldState = s.eOldState := by
  unfold stepStatusInvalid
  dsimp only
  split <;> simp [stopTimeout]

lemma stepScanning_cases (ctx : Ctx) (bT : Bool) (cD : Option Advertisement)
    (s s1 : MachineState) (ev1 : List Event)
    (h : stepScanning ctx bT cD s = some (s1, ev1)) :
    (s1.eState = EState.ready4answer ∨ s1.eState = s.eState) ∧
    s1.eOldState = s.eOldState := by
  rw [stepScanning] at h
  rcases hsd : scanDiscover ctx cD { s with cRawStatus := none } with ⟨sd, evd⟩
  rw [hsd] at h
  dsimp only at h
  have hinv := scanDiscover_invariants ctx cD { s with cRawStatus := none }
  rw [hsd] at hinv
  have hes : sd.eState = s.eState := by
    have := hinv.1
    simpa using this
  have heo : sd.eOldState = s.eOldState := by
    have := hinv.2.2.2.2.2.1
    simpa using this
  split at h
  · rcases hps : parseStatus ctx sd.cRawStatus with _ | q <;> rw [stopTimeout] at h <;>
      simp [hps] at h
    obtain ⟨hs1, hev⟩ := h
    rw [← hs1]
    exact ⟨Or.inl rfl, heo⟩
  · simp at h
    obtain ⟨hs1, hev⟩ := h
    rw [← hs1]
    exact ⟨Or.inr hes, heo⟩

lemma smLoop_si_ff (n : Nat) (ctx : Ctx) (s : MachineState)
    (h : s.eState = EState.statusInvalid) :
    ∃ r, smLoop (n + 2) ctx false none s = some r := by
  rw [smLoop, smStep_statusInvalid ctx false none s h]
  rcases hss : stepStatusInvalid ctx { s with eOldState := some EState.statusInvalid }
    with ⟨s1, ev1⟩
  dsimp only
  have heo : s1.eOldState = some EState.statusInvalid := by
    have := stepStatusInvalid_eOld ctx { s with eOldState := some EState.statusInvalid }
    rw [hss] at this
    simpa using this
  rcases stepStatusInvalid_cases ctx { s with eOldState := some EState.statusInvalid }
    with hc | hc <;> rw [hss] at hc <;> simp at hc
  · rw [if_neg (by simp [heo, hc])]
    obtain ⟨⟨s2, ev2⟩, hrec⟩ :
        ∃ r, smLoop (n + 1) ctx false none s1 = some r :=
      ⟨_, smLoop_scanning_ff n ctx s1 hc⟩
    rw [hrec]
    exact ⟨_, rfl⟩
  · rw [if_pos (by simp [heo, hc, h])]
    exact ⟨_, rfl⟩

lemma smLoop_nr_ff (n : Nat) (ctx : Ctx) (s : MachineState)
    (h : s.eState = EState.notReady) :
    ∃ r, smLoop (n + 3) ctx false none s = some r := by
  rw [show n + 3 = (n + 2) + 1 from rfl, smLoop,
    smStep_notReady ctx false none s h]
  rcases hss : stepNotReady { s with eOldState := some EState.notReady } with ⟨s1, ev1⟩
  dsimp only
  have heo : s1.eOldState = some EState.notReady := by
    have := stepNotReady_eOld { s with eOldState := some EState.notReady }
    rw [hss] at this
    simpa using this
  rcases stepNotReady_cases { s with eOldState := some EState.notReady }
    with hc | hc <;> rw [hss] at hc <;> simp at hc
  · rw [if_neg (by simp [heo, hc])]
    obtain ⟨r, hrec⟩ := smLoop_si_ff n ctx s1 hc
    rw [hrec]
    exact ⟨_, rfl⟩
  · rw [if_pos (by rw [heo, hc, h])]
    exact ⟨_, rfl⟩

lemma smLoop_r4a_ff (n : Nat) (ctx : Ctx) (s : MachineState)
    (h : s.eState = EState.ready4answer) :
    ∃ r, smLoop (n + 3) ctx false none s = some r := by
  rw [show n + 3 = (n + 2) + 1 from rfl, smLoop,
    smStep_ready4answer ctx false none s h]
  rcases hss : stepReady4answer false { s with eOldState := some EState.ready4answer }
    with ⟨s1, ev1⟩
  dsimp only
  have hstate := stepReady4answer_state false
    { s with eOldState := some EState.ready4answer }
  rw [hss] at hstate
  have heo : s1.eOldState = some EState.ready4answer := by
    have := hstate.2.2.2.2.2.1
    simpa using this
  rcases hstate.2.2.2.2.2.2 with hc | hc <;> simp at hc
  · rw [if_neg (by simp [heo, hc])]
    obtain ⟨r, hrec⟩ := smLoop_si_ff n ctx s1 hc
    rw [hrec]
    exact ⟨_, rfl⟩
  · rw [if_pos (by simp [heo, hc, h])]
    exact ⟨_, rfl⟩

end Inkbird
namespace Inkbird

/-- The callback slot of a given kind. -/
def slotOf : SlotKind → MachineState → Option Cb
  | SlotKind.temperature, s => s.fCallbackTemperature
  | SlotKind.humidity, s => s.fCallbackHumidity
  | SlotKind.extSensor, s => s.fCallbackExtSensor
  | SlotKind.batteryLevel, s => s.fCallbackBatteryLevel
  | SlotKind.lowBattery, s => s.fCallbackLowBattery

lemma stepReady4answer_invokes (bT : Bool) (s : MachineState) (k : SlotKind) (c : Cb)
    (h : slotOf k s = some c) :
    ∃ v, Event.invoke k c none v ∈ (stepReady4answer bT s).2 := by
  have hev : (stepReady4answer bT s).2 =
      slotInvoke SlotKind.temperature s.fCallbackTemperature (qVal s.reading.fTemperature) ++
      slotInvoke SlotKind.humidity s.fCallbackHumidity (qVal s.reading.fIntHumidity) ++
      slotInvoke SlotKind.extSensor s.fCallbackExtSensor (boolVal s.reading.bExternalSensor) ++
      slotInvoke SlotKind.batteryLevel s.fCallbackBatteryLevel (natVal s.reading.fBatteryLevel) ++
      slotInvoke SlotKind.lowBattery s.fCallbackLowBattery
        (JsVal.bool (jsLtNat s.reading.fBatteryLevel 10)) := by
    unfold stepReady4answer
    dsimp only
    split <;> simp
  rw [hev]
  cases k <;> simp only [slotOf] at h
  · exact ⟨qVal s.reading.fTemperature, by simp [slotInvoke, h]⟩
  · exact ⟨qVal s.reading.fIntHumidity, by simp [slotInvoke, h]⟩
  · exact ⟨boolVal s.reading.bExternalSensor, by simp [slotInvoke, h]⟩
  · exact ⟨natVal s.reading.fBatteryLevel, by simp [slotInvoke, h]⟩
  · exact ⟨JsVal.bool (jsLtNat s.reading.fBatteryLevel 10), by simp [slotInvoke, h]⟩

lemma stepReady4answer_clears (bT : Bool) (s : MachineState) (k : SlotKind) :
    slotOf k (stepReady4answer bT s).1 = none := by
  have hst := stepReady4answer_state bT s
  cases k <;> simp [slotOf, hst.1, hst.2.1, hst.2.2.1, hst.2.2.2.1, hst.2.2.2.2.1]

lemma stepReady4answer_stay (s : MachineState) (hq : s.bQueryStarted = false) :
    (stepReady4answer false s).1.eState = s.eState := by
  unfold stepReady4answer
  dsimp only
  rw [if_neg (by simp [hq])]

lemma stepScanning_timeout (ctx : Ctx) (cD : Option Advertisement)
    (s s1 : MachineState) (ev1 : List Event)
    (h : stepScanning ctx true cD s = some (s1, ev1)) :
    s1.eState = EState.ready4answer ∧ s1.bQueryStarted = false ∧
    s1.eOldState = s.eOldState ∧
    ∀ k c, slotOf k s = some c → slotOf k s1 = some c := by
  rw [stepScanning] at h
  rcases hsd : scanDiscover ctx cD { s with cRawStatus := none } with ⟨sd, evd⟩
  rw [hsd] at h
  dsimp only at h
  have hinv := scanDiscover_invariants ctx cD { s with cRawStatus := none }
  rw [hsd] at hinv
  rw [if_pos (by simp)] at h
  rcases hps : parseStatus ctx (stopTimeout sd).1.cRawStatus with _ | q <;>
      rw [stopTimeout] at h <;> rw [stopTimeout] at hps <;> simp [hps] at h
  obtain ⟨hs1, hev⟩ := h
  subst hs1
  have hT : sd.fCallbackTemperature = s.fCallbackTemperature := by
    simpa using hinv.2.2.2.2.2.2.1
  have hH : sd.fCallbackHumidity = s.fCallbackHumidity := by
    simpa using hinv.2.2.2.2.2.2.2.1
  have hE : sd.fCallbackExtSensor = s.fCallbackExtSensor := by
    simpa using hinv.2.2.2.2.2.2.2.2.1
  have hB : sd.fCallbackBatteryLevel = s.fCallbackBatteryLevel := by
    simpa using hinv.2.2.2.2.2.2.2.2.2.1
  have hL : sd.fCallbackLowBattery = s.fCallbackLowBattery := by
    simpa using hinv.2.2.2.2.2.2.2.2.2.2
  refine ⟨rfl, rfl, by simpa using hinv.2.2.2.2.2.1, ?_⟩
  intro k c hk
  cases k <;> simp only [slotOf] at hk ⊢ <;>
    simp [fillSlot, hT, hH, hE, hB, hL, hk]

end Inkbird
namespace Inkbird

lemma smLoop_noInvoke_ff (fuel : Nat) (ctx : Ctx) (s s' : MachineState)
    (ev : List Event) (hne : s.eState ≠ EState.ready4answer)
    (h : smLoop fuel ctx false none s = some (s', ev)) : NoInvoke ev := by
  induction fuel generalizing s ev with
  | zero => simp [smLoop] at h
  | succ n ih =>
    rw [smLoop] at h
    rcases he : s.eState with enr | esi | esc | er4
    · rw [smStep_notReady ctx false none s he] at h
      rcases hss : stepNotReady { s with eOldState := some EState.notReady }
        with ⟨s1, ev1⟩
      rw [hss] at h
      dsimp only at h
      have hni : NoInvoke ev1 := by
        have := stepNotReady_noInvoke { s with eOldState := some EState.notReady }
        rw [hss] at this
        exact this
      have hs1 : s1.eState ≠ EState.ready4answer := by
        rcases stepNotReady_cases { s with eOldState := some EState.notReady }
          with hc | hc <;> rw [hss] at hc <;> simp at hc <;> simp [hc, he]
      split at h
      · simp at h
        obtain ⟨h1, h2⟩ := h
        subst h2
        exact hni
      · rcases hrec : smLoop n ctx false none s1 with _ | ⟨s2, ev2⟩ <;>
          rw [hrec] at h <;> simp at h
        obtain ⟨h1, h2⟩ := h
        subst h1
        subst h2
        exact NoInvoke_append _ _ hni (ih s1 ev2 hs1 hrec)
    · rw [smStep_statusInvalid ctx false none s he] at h
      rcases hss : stepStatusInvalid ctx { s with eOldState := some EState.statusInvalid }
        with ⟨s1, ev1⟩
      rw [hss] at h
      dsimp only at h
      have hni : NoInvoke ev1 := by
        have := stepStatusInvalid_noInvoke ctx { s with eOldState := some EState.statusInvalid }
        rw [hss] at this
        exact this
      have hs1 : s1.eState ≠ EState.ready4answer := by
        rcases stepStatusInvalid_cases ctx { s with eOldState := some EState.statusInvalid }
          with hc | hc <;> rw [hss] at hc <;> simp at hc <;> simp [hc, he]
      split at h
      · simp at h
        obtain ⟨h1, h2⟩ := h
        subst h2
        exact hni
      · rcases hrec : smLoop n ctx false none s1 with _ | ⟨s2, ev2⟩ <;>
          rw [hrec] at h <;> simp at h
        obtain ⟨h1, h2⟩ := h
        subst h1
        subst h2
        exact NoInvoke_append _ _ hni (ih s1 ev2 hs1 hrec)
    · rw [smStep_scanning ctx false none s he] at h
      rcases hss : stepScanning ctx false none { s with eOldState := some EState.scanning }
        with _ | ⟨s1, ev1⟩ <;> rw [hss] at h
      · simp at h
      dsimp only at h
      have hni : NoInvoke ev1 :=
        stepScanning_noInvoke ctx false none
          { s with eOldState := some EState.scanning } s1 ev1 hss
      have hs1 : s1.eState ≠ EState.ready4answer ∨ s1.eState = EState.ready4answer :=
        (em _).symm
      rcases hs1 with hs1 | hs1
      · split at h
        · simp at h
          obtain ⟨h1, h2⟩ := h
          subst h2
          exact hni
        · rcases hrec : smLoop n ctx false none s1 with _ | ⟨s2, ev2⟩ <;>
            rw [hrec] at h <;> simp at h
          obtain ⟨h1, h2⟩ := h
          subst h1
          subst h2
          exact NoInvoke_append _ _ hni (ih s1 ev2 hs1 hrec)
      · exfalso
        rw [stepScanning] at hss
        rcases hsd : scanDiscover ctx none
            { { s with eOldState := some EState.scanning } with cRawStatus := none }
          with ⟨sd, evd⟩
        rw [hsd] at hss
        dsimp only at hss
        have hsd2 : sd.cRawStatus = none := by
          rcases scanDiscover_craw ctx none
              { { s with eOldState := some EState.scanning } with cRawStatus := none }
            with hc2 | ⟨p, hp, hc2⟩
          · rw [hsd] at hc2
            simpa using hc2
          · cases hp
        rw [if_neg (by simp [hsd2])] at hss
        have hsi := scanDiscover_invariants ctx none
          { { s with eOldState := some EState.scanning } with cRawStatus := none }
        rw [hsd] at hsi
        have hsde : sd.eState = EState.scanning := by
          have h0 := hsi.1
          simpa [he] using h0
        simp at hss
        obtain ⟨h1, h2⟩ := hss
        rw [← h1, hsde] at hs1
        simp at hs1
    · exact absurd he hne

end Inkbird
namespace Inkbird

lemma smStep_noInvoke (ctx : Ctx) (bT : Bool) (cD : Option Advertisement)
    (s s1 : MachineState) (ev1 : List Event)
    (hne : s.eState ≠ EState.ready4answer)
    (h : smStep ctx bT cD s = some (s1, ev1)) : NoInvoke ev1 := by
  rcases he : s.eState with enr | esi | esc | er4
  · rw [smStep_notReady ctx bT cD s he] at h
    have hp : stepNotReady { s with eOldState := some EState.notReady } = (s1, ev1) := by
      injection h
    have := stepNotReady_noInvoke { s with eOldState := some EState.notReady }
    rw [hp] at this
    exact this
  · rw [smStep_statusInvalid ctx bT cD s he] at h
    have hp : stepStatusInvalid ctx { s with eOldState := some EState.statusInvalid } =
        (s1, ev1) := by
      injection h
    have := stepStatusInvalid_noInvoke ctx { s with eOldState := some EState.statusInvalid }
    rw [hp] at this
    exact this
  · rw [smStep_scanning ctx bT cD s he] at h
    exact stepScanning_noInvoke ctx bT cD { s with eOldState := some EState.scanning }
      s1 ev1 h
  · exact absurd he hne

lemma smLoop_count (fuel : Nat) (ctx : Ctx) (bT : Bool) (cD : Option Advertisement)
    (s s' : MachineState) (ev : List Event) (k : SlotKind)
    (h : smLoop fuel ctx bT cD s = some (s', ev)) : invokeCount k ev ≤ 1 := by
  induction fuel generalizing bT cD s s' ev with
  | zero => simp [smLoop] at h
  | succ n ih =>
    rw [smLoop] at h
    rcases hst : smStep ctx bT cD s with _ | ⟨s1, ev1⟩ <;> rw [hst] at h
    · simp at h
    · dsimp only at h
      have hc1 : invokeCount k ev1 ≤ 1 := by
        by_cases hr4 : s.eState = EState.ready4answer
        · rw [smStep_ready4answer ctx bT cD s hr4] at hst
          have hp : stepReady4answer bT { s with eOldState := some EState.ready4answer } =
              (s1, ev1) := by
            injection hst
          have := stepReady4answer_count bT
            { s with eOldState := some EState.ready4answer } k
          rw [hp] at this
          exact this
        · rw [invokeCount_eq_zero k ev1 (smStep_noInvoke ctx bT cD s s1 ev1 hr4 hst)]
          omega
      by_cases hfix : s1.eOldState = some s1.eState
      · rw [if_pos hfix] at h
        simp at h
        obtain ⟨h1, h2⟩ := h
        subst h2
        exact hc1
      · rw [if_neg hfix] at h
        rcases hrec : smLoop n ctx false none s1 with _ | ⟨s2, ev2⟩ <;> rw [hrec] at h
        · simp at h
        · simp at h
          obtain ⟨h1, h2⟩ := h
          subst h1
          subst h2
          rw [invokeCount_append]
          by_cases hr4 : s.eState = EState.ready4answer
          · rw [smStep_ready4answer ctx bT cD s hr4] at hst
            have hp : stepReady4answer bT
                { s with eOldState := some EState.ready4answer } = (s1, ev1) := by
              injection hst
            have hstate := stepReady4answer_state bT
              { s with eOldState := some EState.ready4answer }
            rw [hp] at hstate
            have heo : s1.eOldState = some EState.ready4answer := by
              have := hstate.2.2.2.2.2.1
              simpa using this
            have hs1e : s1.eState = EState.statusInvalid := by
              rcases hstate.2.2.2.2.2.2 with hc | hc
              · simpa using hc
              · exfalso
                apply hfix
                rw [heo]
                simp at hc
                rw [hc, hr4]
            have hz := invokeCount_eq_zero k ev2
              (smLoop_noInvoke_ff n ctx s1 s2 ev2 (by simp [hs1e]) hrec)
            omega
          · have hz := invokeCount_eq_zero k ev1
              (smStep_noInvoke ctx bT cD s s1 ev1 hr4 hst)
            have h2 := ih false none s1 s2 ev2 hrec
            omega

lemma smLoop_err (fuel : Nat) (ctx : Ctx) (bT : Bool) (cD : Option Advertisement)
    (s s' : MachineState) (ev : List Event)
    (h : smLoop fuel ctx bT cD s = some (s', ev))
    (k : SlotKind) (c : Cb) (e : Option String) (v : JsVal)
    (hm : Event.invoke k c e v ∈ ev) : e = none := by
  induction fuel generalizing bT cD s s' ev with
  | zero => simp [smLoop] at h
  | succ n ih =>
    rw [smLoop] at h
    rcases hst : smStep ctx bT cD s with _ | ⟨s1, ev1⟩ <;> rw [hst] at h
    · simp at h
    · dsimp only at h
      have hcase : ∀ e', Event.invoke k c e' v ∈ ev1 → e' = none := by
        intro e' hm'
        by_cases hr4 : s.eState = EState.ready4answer
        · rw [smStep_ready4answer ctx bT cD s hr4] at hst
          have hp : stepReady4answer bT
              { s with eOldState := some EState.ready4answer } = (s1, ev1) := by
            injection hst
          have := stepReady4answer_err bT
            { s with eOldState := some EState.ready4answer } k c e' v
          rw [hp] at this
          exact this hm'
        · exact absurd hm' (smStep_noInvoke ctx bT cD s s1 ev1 hr4 hst k c e' v)
      by_cases hfix : s1.eOldState = some s1.eState
      · rw [if_pos hfix] at h
        simp at h
        obtain ⟨h1, h2⟩ := h
        subst h2
        exact hcase e hm
      · rw [if_neg hfix] at h
        rcases hrec : smLoop n ctx false none s1 with _ | ⟨s2, ev2⟩ <;> rw [hrec] at h
        · simp at h
        · simp at h
          obtain ⟨h1, h2⟩ := h
          subst h1
          subst h2
          rcases List.mem_append.mp hm with hm' | hm'
          · exact hcase e hm'
          · exact ih false none s1 s2 ev2 hrec hm'

end Inkbird
namespace Inkbird

lemma RunStatemachine_split (ctx : Ctx) (bT : Bool) (cD : Option Advertisement)
    (s s' : MachineState) (ev : List Event)
    (h : RunStatemachine ctx bT cD s = some (s', ev)) :
    ∃ s0 ev2, smLoop 6 ctx bT cD s0 = some (s', ev2) ∧
      (∀ k, invokeCount k ev = invokeCount k ev2) ∧
      ∀ k c e v, Event.invoke k c e v ∈ ev → Event.invoke k c e v ∈ ev2 := by
  rcases hti : s.iTimeoutId with _ | t <;> cases bT <;>
    simp only [RunStatemachine, stopTimeout, hti] at h <;>
    simp at h <;>
    repeat' split at h
  all_goals simp at h
  all_goals obtain ⟨h1, h2⟩ := h
  all_goals subst h1
  all_goals subst h2
  all_goals refine ⟨_, _, by assumption, ?_, ?_⟩
  all_goals try (intro k; simp [invokeCount, List.filter_append, isInvokeOf])
  all_goals intro k c e v hm
  all_goals first
    | simpa using hm
    | exact hm

end Inkbird
namespace Inkbird

lemma smLoop_total (n : Nat) (ctx : Ctx) (bT : Bool) (cD : Option Advertisement)
    (s : MachineState)
    (hcd : cD = none ∨ ∃ adv, cD = some adv ∧ adv.manufacturerData.length = 9) :
    ∃ r, smLoop (n + 4) ctx bT cD s = some r := by
  rcases he : s.eState with enr | esi | esc | er4
  · rw [show n + 4 = (n + 3) + 1 from rfl, smLoop, smStep_notReady ctx bT cD s he]
    rcases hss : stepNotReady { s with eOldState := some EState.notReady } with ⟨s1, ev1⟩
    dsimp only
    have heo : s1.eOldState = some EState.notReady := by
      have := stepNotReady_eOld { s with eOldState := some EState.notReady }
      rw [hss] at this
      simpa using this
    rcases stepNotReady_cases { s with eOldState := some EState.notReady }
      with hc | hc <;> rw [hss] at hc <;> simp at hc
    · rw [if_neg (by simp [heo, hc])]
      obtain ⟨⟨s2, ev2⟩, hrec⟩ := smLoop_si_ff (n + 1) ctx s1 hc
      rw [hrec]
      exact ⟨_, rfl⟩
    · rw [if_pos (by rw [heo, hc, he])]
      exact ⟨_, rfl⟩
  · rw [show n + 4 = (n + 3) + 1 from rfl, smLoop, smStep_statusInvalid ctx bT cD s he]
    rcases hss : stepStatusInvalid ctx { s with eOldState := some EState.statusInvalid }
      with ⟨s1, ev1⟩
    dsimp only
    have heo : s1.eOldState = some EState.statusInvalid := by
      have := stepStatusInvalid_eOld ctx { s with eOldState := some EState.statusInvalid }
      rw [hss] at this
      simpa using this
    rcases stepStatusInvalid_cases ctx { s with eOldState := some EState.statusInvalid }
      with hc | hc <;> rw [hss] at hc <;> simp at hc
    · rw [if_neg (by simp [heo, hc])]
      obtain ⟨⟨s2, ev2⟩, hrec⟩ : ∃ r, smLoop (n + 3) ctx false none s1 = some r :=
        ⟨_, smLoop_scanning_ff (n + 2) ctx s1 hc⟩
      rw [hrec]
      exact ⟨_, rfl⟩
    · rw [if_pos (by rw [heo, hc, he])]
      exact ⟨_, rfl⟩
  · rw [show n + 4 = (n + 3) + 1 from rfl, smLoop, smStep_scanning ctx bT cD s he]
    obtain ⟨⟨s1, ev1⟩, hss⟩ := stepScanning_total ctx bT cD
      { s with eOldState := some EState.scanning } hcd
    rw [hss]
    dsimp only
    obtain ⟨hc, heo⟩ := stepScanning_cases ctx bT cD
      { s with eOldState := some EState.scanning } s1 ev1 hss
    have heo2 : s1.eOldState = some EState.scanning := by simpa using heo
    rcases hc with hc | hc
    · rw [if_neg (by simp [heo2, hc])]
      obtain ⟨⟨s2, ev2⟩, hrec⟩ := smLoop_r4a_ff n ctx s1 hc
      rw [hrec]
      exact ⟨_, rfl⟩
    · rw [if_pos (by rw [heo2]; simp at hc; rw [hc, he])]
      exact ⟨_, rfl⟩
  · rw [show n + 4 = (n + 3) + 1 from rfl, smLoop, smStep_ready4answer ctx bT cD s he]
    rcases hss : stepReady4answer bT { s with eOldState := some EState.ready4answer }
      with ⟨s1, ev1⟩
    dsimp only
    have hstate := stepReady4answer_state bT
      { s with eOldState := some EState.ready4answer }
    rw [hss] at hstate
    have heo : s1.eOldState = some EState.ready4answer := by
      have := hstate.2.2.2.2.2.1
      simpa using this
    rcases hstate.2.2.2.2.2.2 with hc | hc <;> simp at hc
    · rw [if_neg (by simp [heo, hc])]
      obtain ⟨⟨s2, ev2⟩, hrec⟩ := smLoop_si_ff (n + 1) ctx s1 hc
      rw [hrec]
      exact ⟨_, rfl⟩
    · rw [if_pos (by rw [heo, hc, he])]
      exact ⟨_, rfl⟩

lemma RunStatemachine_total (ctx : Ctx) (bT : Bool) (cD : Option Advertisement)
    (s : MachineState)
    (hcd : cD = none ∨ ∃ adv, cD = some adv ∧ adv.manufacturerData.length = 9) :
    ∃ r, RunStatemachine ctx bT cD s = some r := by
  simp only [RunStatemachine]
  obtain ⟨⟨s2, ev2⟩, hsl⟩ := smLoop_total 2 ctx bT cD _ hcd
  rw [show (6 : Nat) = 2 + 4 from rfl, hsl]
  exact ⟨_, rfl⟩

end Inkbird
namespace Inkbird

lemma slotOf_eOld (x : MachineState) (e : Option EState) (k : SlotKind) :
    slotOf k { x with eOldState := e } = slotOf k x := by
  cases k <;> simp [slotOf]

lemma slotOf_noTimer (x : MachineState) (k : SlotKind) :
    slotOf k { x with iTimeoutId := none } = slotOf k x := by
  cases k <;> simp [slotOf]

lemma run_timeout_scanning (ctx : Ctx) (s : MachineState)
    (hscan : s.eState = EState.scanning) (hhw : s.bHWReady = true) :
    ∃ s' ev, RunStatemachine ctx true none s = some (s', ev) ∧
      s'.eState = EState.ready4answer ∧
      ∀ k c, slotOf k s = some c → ∃ v, Event.invoke k c none v ∈ ev := by
  have hs0e : MachineState.eState { s with iTimeoutId := none } = EState.scanning := by
    simpa using hscan
  obtain ⟨⟨sA, evA⟩, hA⟩ := stepScanning_total ctx true none
    { { s with iTimeoutId := none } with eOldState := some EState.scanning } (Or.inl rfl)
  obtain ⟨hAe, hAq, hAeo0, hAslots⟩ := stepScanning_timeout ctx none
    { { s with iTimeoutId := none } with eOldState := some EState.scanning } sA evA hA
  have hAeo : sA.eOldState = some EState.scanning := by simpa using hAeo0
  rcases hB : stepReady4answer false { sA with eOldState := some EState.ready4answer }
    with ⟨sB, evB⟩
  have hBst := stepReady4answer_state false { sA with eOldState := some EState.ready4answer }
  rw [hB] at hBst
  have hBeo : sB.eOldState = some EState.ready4answer := by
    have := hBst.2.2.2.2.2.1
    simpa using this
  have hBe : sB.eState = EState.ready4answer := by
    have := stepReady4answer_stay { sA with eOldState := some EState.ready4answer }
      (by simpa using hAq)
    rw [hB] at this
    simpa [hAe] using this
  have hloop2 : smLoop 5 ctx false none sA = some (sB, evB) := by
    rw [smLoop, smStep_ready4answer ctx false none sA hAe, hB]
    dsimp only
    rw [if_pos (by rw [hBeo, hBe])]
  have hloop : smLoop 6 ctx true none { s with iTimeoutId := none } =
      some (sB, evA ++ evB) := by
    rw [show (6 : Nat) = 5 + 1 from rfl, smLoop,
      smStep_scanning ctx true none { s with iTimeoutId := none } hs0e, hA]
    dsimp only
    rw [if_neg (by simp [hAeo, hAe]), hloop2]
  have hrun : RunStatemachine ctx true none s =
      some (sB, (stopTimeout s).2 ++ [] ++ (evA ++ evB)) := by
    simp only [RunStatemachine]
    rw [if_neg (by simp [stopTimeout, hhw])]
    simp only [if_true]
    rw [show (stopTimeout s).1 = { s with iTimeoutId := none } from rfl, hloop]
  refine ⟨sB, _, hrun, hBe, ?_⟩
  intro k c hk
  have hk1 : slotOf k { { s with iTimeoutId := none }
      with eOldState := some EState.scanning } = some c := by
    rw [slotOf_eOld, slotOf_noTimer]
    exact hk
  have hkA : slotOf k sA = some c := hAslots k c hk1
  have hkA2 : slotOf k { sA with eOldState := some EState.ready4answer } = some c := by
    rw [slotOf_eOld]
    exact hkA
  obtain ⟨v, hv⟩ := stepReady4answer_invokes false
    { sA with eOldState := some EState.ready4answer } k c hkA2
  rw [hB] at hv
  exact ⟨v, by simp [hv]⟩

end Inkbird
namespace Inkbird

/-- **C8**: for every invocation of the state machine, the do/while loop
re-evaluates the new state's logic within the same invocation until an
iteration produces no further state change (every completed
`RunStatemachine` run ends with `eOldState = some eState`); and a
discovery-timeout event arriving while in Scanning with the radio on
reaches ReadingReady and invokes every pending callback before that
single invocation returns, with no second external call required. -/
theorem C8_reentrant_until_fixpoint (ctx : Ctx) (bT : Bool)
    (cD : Option Advertisement) (s s' : MachineState) (ev : List Event)
    (hrun : RunStatemachine ctx bT cD s = some (s', ev))
    (t : MachineState) (hscan : t.eState = EState.scanning)
    (hhw : t.bHWReady = true) :
    s'.eOldState = some s'.eState ∧
    ∃ t' ev2, RunStatemachine ctx true none t = some (t', ev2) ∧
      t'.eState = EState.ready4answer ∧
      ∀ k c, slotOf k t = some c → ∃ v, Event.invoke k c none v ∈ ev2 := by
  constructor
  · obtain ⟨s0, ev0, hsl, h1, h2⟩ := RunStatemachine_split ctx bT cD s s' ev hrun
    exact smLoop_fixpoint 6 ctx bT cD s0 s' ev0 hsl
  · exact run_timeout_scanning ctx t hscan hhw

/-- **C8** witness: a timeout invocation on the concrete Scanning state
completes, ends in a fixpoint, and flushes the pending temperature
callback within the same invocation. -/
theorem C8_witness :
    ∃ s' ev, RunStatemachine ctxIBSTH1 true none stateScanning = some (s', ev) ∧
      s'.eOldState = some s'.eState ∧
      ∃ t' ev2, RunStatemachine ctxIBSTH1 true none stateScanning = some (t', ev2) ∧
        t'.eState = EState.ready4answer ∧
        ∀ k c, slotOf k stateScanning = some c →
          ∃ v, Event.invoke k c none v ∈ ev2 := by
  obtain ⟨⟨s', ev⟩, hrun⟩ :=
    RunStatemachine_total ctxIBSTH1 true none stateScanning (Or.inl rfl)
  obtain ⟨hfix, hscen⟩ := C8_reentrant_until_fixpoint ctxIBSTH1 true none
    stateScanning s' ev hrun stateScanning rfl rfl
  exact ⟨s', ev, hrun, hfix, hscen⟩

/-- **C9**: in every completed scheduler invocation each callback kind is
invoked at most once and every invocation carries a null error argument
(the value is a number, a boolean or undefined by construction); the
`READY4ANSWER` step invokes each pending slot and clears it in that same
step; and the scheduler returns normally (never throws) whatever the
timeout flag, radio state and machine state, for any discovery event
carrying a genuine 9-byte frame — so radio-off, discovery-timeout,
CRC-mismatch and plausibility-failure conditions are all absorbed. -/
theorem C9_callback_contract (ctx : Ctx) (bT : Bool) (cD : Option Advertisement)
    (s s' : MachineState) (ev : List Event)
    (hrun : RunStatemachine ctx bT cD s = some (s', ev))
    (ctx2 : Ctx) (bT2 : Bool) (cD2 : Option Advertisement) (s2 : MachineState)
    (hcd2 : cD2 = none ∨ ∃ adv, cD2 = some adv ∧ adv.manufacturerData.length = 9) :
    (∀ k, invokeCount k ev ≤ 1) ∧
    (∀ k c e v, Event.invoke k c e v ∈ ev → e = none) ∧
    (∀ (bT3 : Bool) (t : MachineState) (k : SlotKind) (c : Cb),
      slotOf k t = some c →
        (∃ v, Event.invoke k c none v ∈ (stepReady4answer bT3 t).2) ∧
        slotOf k (stepReady4answer bT3 t).1 = none) ∧
    ∃ r, RunStatemachine ctx2 bT2 cD2 s2 = some r := by
  obtain ⟨s0, ev2, hsl, hcnt, hmem⟩ := RunStatemachine_split ctx bT cD s s' ev hrun
  refine ⟨?_, ?_, ?_, RunStatemachine_total ctx2 bT2 cD2 s2 hcd2⟩
  · intro k
    rw [hcnt k]
    exact smLoop_count 6 ctx bT cD s0 s' ev2 k hsl
  · intro k c e v hm
    exact smLoop_err 6 ctx bT cD s0 s' ev2 hsl k c e v (hmem k c e v hm)
  · intro bT3 t k c hk
    exact ⟨stepReady4answer_invokes bT3 t k c hk, stepReady4answer_clears bT3 t k⟩

/-- **C9** witness: the contract instantiated on a concrete completed
timeout run and a concrete radio/discovery configuration. -/
theorem C9_witness :
    ∃ s' ev, RunStatemachine ctxIBSTH1 true none stateScanning = some (s', ev) ∧
      (∀ k, invokeCount k ev ≤ 1) ∧
      (∀ k c e v, Event.invoke k c e v ∈ ev → e = none) ∧
      (∀ (bT3 : Bool) (t : MachineState) (k : SlotKind) (c : Cb),
        slotOf k t = some c →
          (∃ v, Event.invoke k c none v ∈ (stepReady4answer bT3 t).2) ∧
          slotOf k (stepReady4answer bT3 t).1 = none) ∧
      ∃ r, RunStatemachine ctxIBSTH1 false none stateScanning = some r := by
  obtain ⟨⟨s', ev⟩, hrun⟩ :=
    RunStatemachine_total ctxIBSTH1 true none stateScanning (Or.inl rfl)
  obtain ⟨h1, h2, h3, h4⟩ := C9_callback_contract ctxIBSTH1 true none stateScanning
    s' ev hrun ctxIBSTH1 false none stateScanning (Or.inl rfl)
  exact ⟨s', ev, hrun, h1, h2, h3, h4⟩

end Inkbird
